import Mathlib

/-!
Verification development for the MySensors node-side transport layer
(`MyTransport.cpp`).  The C++ source is embedded shallowly: the global
variables (`_nc`, `_failedTransmissions`, the firmware-session globals, the
signing globals, the routing table and flash backing stores) become the
fields of an explicit `State` record, and each transport function becomes a
pure Lean function `Env → State → State × Eff × …` where `Env` carries the
inputs the hardware and the external collaborators would provide (radio
availability, driver success flags, the signer's verdicts, the clock) and
`Eff` records the externally observable actions (frames handed to the radio
driver, error blinks, the signer timer tick, reboot, config persistence).

The compile-time configuration modelled here is the one the specification's
claims are about: MY_REPEATER_FEATURE, MY_SIGNING_FEATURE together with
MY_SIGNING_REQUEST_SIGNATURES, and MY_OTA_FIRMWARE_FEATURE are enabled;
MY_GATEWAY_FEATURE is disabled (a repeater node, not a gateway).

Places where the run-time behaviour depends on code that is not part of the
given sources (the nested re-entrant `_process()` calls during the signing
wait, the blocking `wait()` that may pump the loop, `_processInternalMessages`
and `present()` from the host layer) are modelled as explicit environment
hooks (`drainState`, `waitHook`, `processInternal`, `presentHook`).
-/

namespace MySensors

/-! ## Protocol constants

The numeric constants live in headers (`MyConfig.h`, `MyMessage.h`,
`MyTransport.h`) that are not part of the given sources.  Modelled from the
spec: reserved addresses (gateway 0, broadcast 255, `AUTO` sentinel),
distance 255 = unknown, 16-byte firmware blocks, the 10-byte staging header
at flash offset 0 with the image starting right after it, maximum frame of
32 bytes over a 7-byte header with up to 25 payload bytes.  Message command
and subtype codes only need to be pairwise distinct; representative values
are used. -/

def GATEWAY_ADDRESS : Nat := 0
def BROADCAST_ADDRESS : Nat := 255
def AUTO : Nat := 255
def NODE_SENSOR_ID : Nat := 255
def DISTANCE_INVALID : Nat := 255
def PROTOCOL_VERSION : Nat := 2
def MAX_MESSAGE_LENGTH : Nat := 32
def HEADER_SIZE : Nat := 7
def MAX_PAYLOAD : Nat := 25
def FIRMWARE_BLOCK_SIZE : Nat := 16
def FIRMWARE_START_OFFSET : Nat := 10
def MY_OTA_RETRY : Nat := 5
def MY_OTA_RETRY_DELAY : Nat := 500
def MY_VERIFICATION_TIMEOUT_MS : Nat := 5000
def SEARCH_FAILURES : Nat := 3

def C_PRESENTATION : Nat := 0
def C_SET : Nat := 1
def C_REQ : Nat := 2
def C_INTERNAL : Nat := 3
def C_STREAM : Nat := 4

def I_ID_REQUEST : Nat := 3
def I_ID_RESPONSE : Nat := 4
def I_CONFIG : Nat := 6
def I_FIND_PARENT : Nat := 7
def I_FIND_PARENT_RESPONSE : Nat := 8
def I_REQUEST_SIGNING : Nat := 15
def I_GET_NONCE : Nat := 16
def I_GET_NONCE_RESPONSE : Nat := 17
def I_HEARTBEAT : Nat := 18
def I_DISCOVER : Nat := 20
def I_DISCOVER_RESPONSE : Nat := 21
def I_HEARTBEAT_RESPONSE : Nat := 22

def ST_FIRMWARE_CONFIG_REQUEST : Nat := 0
def ST_FIRMWARE_CONFIG_RESPONSE : Nat := 1
def ST_FIRMWARE_REQUEST : Nat := 2
def ST_FIRMWARE_RESPONSE : Nat := 3

def P_STRING : Nat := 0
def P_BYTE : Nat := 1
def P_CUSTOM : Nat := 6

def SIGN_WAITING_FOR_NONCE : Nat := 1
def SIGN_OK : Nat := 2

/-! ## Message codec -/

/-- Wire message: the fixed MySensors header fields plus the payload bytes.
Bit-packed flags of the C struct (`ack`, `req-ack`, `signed`, the 3-bit
command and version fields, 5-bit length) are separate record fields. -/
structure MyMessage where
  last : Nat
  sender : Nat
  destination : Nat
  sensor : Nat
  command : Nat
  reqAck : Bool
  ack : Bool
  signedFlag : Bool
  version : Nat
  payloadType : Nat
  length : Nat
  type : Nat
  payload : List Nat
deriving DecidableEq, Repr

def blankMsg : MyMessage :=
  ⟨0, 0, 0, 0, 0, false, false, false, 0, 0, 0, 0, []⟩

/-- Modelled from the spec: `build` (MyMessage.cpp / MySensor.cpp is not in
the given sources) fills the addressing fields and subtype of an existing
message buffer, zeroes the ack and signed flag bits and stamps the protocol
version.  It does not touch the payload, the length, or the `last` field. -/
def build (m : MyMessage) (sender dest sensor cmd t : Nat) (ackReq : Bool) :
    MyMessage :=
  { m with sender := sender, destination := dest, sensor := sensor,
           command := cmd % 8, type := t, reqAck := ackReq, ack := false,
           signedFlag := false, version := PROTOCOL_VERSION }

/-- Modelled from the spec: `set("")` — empty string payload. -/
def msgSetEmpty (m : MyMessage) : MyMessage :=
  { m with payload := [], length := 0, payloadType := P_STRING }

/-- Modelled from the spec: `set(uint8)` — one byte payload, updating
`length` and `payload_type` together. -/
def msgSetByte (m : MyMessage) (b : Nat) : MyMessage :=
  { m with payload := [b % 256], length := 1, payloadType := P_BYTE }

/-- Modelled from the spec: `getByte()` — the first payload byte. -/
def msgGetByte (m : MyMessage) : Nat := m.payload.headD 0 % 256

/-- Modelled from the spec: `getBool()` — first payload byte, nonzero. -/
def msgGetBool (m : MyMessage) : Bool := msgGetByte m ≠ 0

/-! ## Node, firmware and machine state -/

structure NodeConfig where
  nodeId : Nat
  parentNodeId : Nat
  distance : Nat
deriving DecidableEq, Repr

/-- `NodeFirmwareConfig`: type, version, block count and CRC, each a 16-bit
field on the wire. -/
structure FwConfig where
  fwType : Nat
  fwVersion : Nat
  blocks : Nat
  crc : Nat
deriving DecidableEq, Repr

/-- The process-wide mutable variables of MyTransport.cpp, plus the
nonvolatile routing/signing tables and the staging flash, as one record.
`routes` is the EEPROM route region indexed by child address; `doSign` the
signing-requirement table; `flash` the SPI staging flash (byte array). -/
structure State where
  nc : NodeConfig
  autoFindParent : Bool
  failedTransmissions : Nat
  routes : Nat → Nat
  doSign : Nat → Bool
  signingNonceStatus : Nat
  msgSign : MyMessage
  fc : FwConfig
  fwUpdateOngoing : Bool
  fwBlock : Nat
  fwRetry : Nat
  fwLastRequestTime : Nat
  flash : Nat → Nat
  findingParentNode : Bool

/-- Inputs from the hardware and the external collaborators for one call:
radio availability and the received frame, the clock, the radio driver's
success verdict, the signer's verdicts and output, and the state
transformers standing for code outside the given sources (nested
`_process()` during the signing wait, `wait()`, `_processInternalMessages`,
`present()`).  Frames sent by those nested calls are not tracked in the
caller's effect record. -/
structure Env where
  available : Option Nat
  received : MyMessage
  millis : Nat
  sendOk : Nat → MyMessage → Bool
  verifyOk : MyMessage → Bool
  getNonceOk : Bool
  nonce : List Nat
  putNonceSignOk : Bool
  signMsg : MyMessage → MyMessage
  flashInitOk : Bool
  drainState : State → State
  drainElapsed : Nat
  waitHook : State → State
  processInternal : State → State
  presentHook : State → State

/-- One frame handed to the radio driver: destination pipe address, the
message as stamped by `transportSendWrite`, and the on-wire length. -/
structure SentFrame where
  toAddr : Nat
  msg : MyMessage
  wireLen : Nat
deriving DecidableEq, Repr

/-- Externally observable actions of one call. -/
structure Eff where
  sent : List SentFrame
  errBlinks : Nat
  signerTicks : Nat
  frameRead : Bool
  verifyInvoked : Bool
  rebooted : Bool
  fcPersisted : Bool
  callbackRun : Bool
  halted : Bool
deriving DecidableEq, Repr

def eff0 : Eff := ⟨[], 0, 0, false, false, false, false, false, false⟩

def effCat (a b : Eff) : Eff :=
  ⟨a.sent ++ b.sent, a.errBlinks + b.errBlinks, a.signerTicks + b.signerTicks,
   a.frameRead || b.frameRead, a.verifyInvoked || b.verifyInvoked,
   a.rebooted || b.rebooted, a.fcPersisted || b.fcPersisted,
   a.callbackRun || b.callbackRun, a.halted || b.halted⟩

/-! ## Small helpers over flash and payload encodings -/

/-- `hwReadConfig`-style byte read. -/
def readByte (f : Nat → Nat) (a : Nat) : Nat := f a % 256

/-- `_flash.writeBytes(addr, bs)` — sequential byte writes. -/
def writeBytes (f : Nat → Nat) (addr : Nat) : List Nat → (Nat → Nat)
  | [] => f
  | b :: rest => writeBytes (fun a => if a = addr then b % 256 else f a) (addr + 1) rest

/-- 16-bit little-endian read of two payload bytes at offset `i`. -/
def le16get (p : List Nat) (i : Nat) : Nat :=
  p.getD i 0 % 256 + 256 * (p.getD (i + 1) 0 % 256)

/-- 16-bit little-endian encoding. -/
def le16 (n : Nat) : List Nat := [n % 256, n / 256 % 256]

/-- The `NodeFirmwareConfig` wire image inside a FIRMWARE_CONFIG_RESPONSE
payload: four 16-bit little-endian fields. -/
def decodeFwConfig (p : List Nat) : FwConfig :=
  ⟨le16get p 0, le16get p 2, le16get p 4, le16get p 6⟩

/-- The 16 data bytes of a `ReplyFWBlock` (after its three 16-bit header
fields); bytes not supplied by the payload read as 0. -/
def fwBlockData (m : MyMessage) : List Nat :=
  (List.range FIRMWARE_BLOCK_SIZE).map (fun i => m.payload.getD (6 + i) 0 % 256)

/-! ## CRC-16 (polynomial 0xA001, initial 0xFFFF, no final xor) -/

def crcShift (c : Nat) : Nat :=
  if c % 2 = 1 then (c / 2) ^^^ 0xA001 else c / 2

def crcShiftN : Nat → Nat → Nat
  | 0, c => c
  | n + 1, c => crcShiftN n (crcShift c)

def crc16Byte (c b : Nat) : Nat := crcShiftN 8 (c ^^^ (b % 256))

/-- The CRC-16 pass of `transportIsValidFirmware`: over
`blocks * FIRMWARE_BLOCK_SIZE` flash bytes (16-bit arithmetic on the bound,
as on the AVR) starting at `FIRMWARE_START_OFFSET`. -/
def crc16Image (flash : Nat → Nat) (blocks : Nat) : Nat :=
  (List.range (blocks * FIRMWARE_BLOCK_SIZE % 65536)).foldl
    (fun c i => crc16Byte c (readByte flash (i + FIRMWARE_START_OFFSET))) 0xFFFF

/-- `transportIsValidFirmware` (lines 354-367). -/
def transportIsValidFirmware (st : State) : Bool :=
  crc16Image st.flash st.fc.blocks == st.fc.crc

/-! ## Handshake-exempt subtypes and the signing predicates -/

/-- The internal subtypes exempt from signing (lines 96-99 and 416-419). -/
def handshakeExempt (t : Nat) : Bool :=
  t == I_GET_NONCE_RESPONSE || t == I_GET_NONCE || t == I_REQUEST_SIGNING ||
  t == I_ID_REQUEST || t == I_ID_RESPONSE ||
  t == I_FIND_PARENT || t == I_FIND_PARENT_RESPONSE ||
  t == I_HEARTBEAT || t == I_HEARTBEAT_RESPONSE

/-- The inbound signature-check domain (lines 92-99): on a non-gateway node
the `!MY_IS_GATEWAY || DO_SIGN(sender)` conjunct is always true. -/
def signCheckDomain (st : State) (m : MyMessage) : Bool :=
  m.destination == st.nc.nodeId && !m.ack &&
  (m.command != C_INTERNAL || !handshakeExempt m.type)

/-- The outbound signing-coordinator entry condition (lines 414-419). -/
def signingCase (st : State) (m : MyMessage) : Bool :=
  st.doSign m.destination && m.sender == st.nc.nodeId && !m.ack &&
  (m.command != C_INTERNAL || !handshakeExempt m.type)

/-! ## The sender (`transportSendWrite`, lines 372-386) -/

/-- `transportSendWrite`: stamps the protocol version, picks the on-wire
length (`MAX_MESSAGE_LENGTH` if the signed flag is set, else the payload
length), sets `last` to this node's id and calls the radio driver with
`min(MAX_MESSAGE_LENGTH, HEADER_SIZE + length)` bytes.  Returns the stamped
message, the driver's flag, and the frame handed to the driver. -/
def transportSendWrite (env : Env) (nc : NodeConfig) (dst : Nat)
    (m0 : MyMessage) : MyMessage × Bool × SentFrame :=
  let m1 := { m0 with version := PROTOCOL_VERSION }
  let length := if m1.signedFlag then MAX_MESSAGE_LENGTH else m1.length
  let m2 := { m1 with last := nc.nodeId }
  let wire := min MAX_MESSAGE_LENGTH (HEADER_SIZE + length)
  (m2, env.sendOk dst m2, ⟨dst, m2, wire⟩)

/-! ## Parent discovery and id request (lines 535-541, 593-615) -/

/-- `transportFindParentNode`: reentrancy-guarded broadcast ping.  The
`wait(2000)` window during which responses are accumulated is the
environment's `waitHook`. -/
def transportFindParentNode (env : Env) (st : State) : State × Eff :=
  if st.findingParentNode then (st, eff0)
  else
    let st1 := { st with findingParentNode := true, failedTransmissions := 0,
                         nc := { st.nc with distance := 255 } }
    let m := msgSetEmpty (build blankMsg st1.nc.nodeId BROADCAST_ADDRESS
                NODE_SENSOR_ID C_INTERNAL I_FIND_PARENT false)
    let r := transportSendWrite env st1.nc BROADCAST_ADDRESS m
    let st2 := env.waitHook st1
    ({ st2 with findingParentNode := false }, { eff0 with sent := [r.2.2] })

/-- `transportRequestNodeId`. -/
def transportRequestNodeId (env : Env) (st : State) : State × Eff :=
  let m := msgSetEmpty (build blankMsg st.nc.nodeId GATEWAY_ADDRESS
              NODE_SENSOR_ID C_INTERNAL I_ID_REQUEST false)
  let r := transportSendWrite env st.nc st.nc.parentNodeId m
  (env.waitHook st, { eff0 with sent := [r.2.2] })

/-! ## Routing (`transportSendRoute`, lines 389-532) -/

/-- The failure-escalation tail of `transportSendRoute` (lines 519-531):
on failure blink, bump `_failedTransmissions` (a uint8) and re-run parent
discovery past `SEARCH_FAILURES`; on success reset the counter. -/
def sendRouteFinish (env : Env) (st : State) (e : Eff) (ok : Bool) :
    State × Eff × Bool :=
  if ok then ({ st with failedTransmissions := 0 }, e, true)
  else
    let st1 := { st with failedTransmissions := (st.failedTransmissions + 1) % 256 }
    let e1 := { e with errBlinks := e.errBlinks + 1 }
    if st1.autoFindParent ∧ SEARCH_FAILURES < st1.failedTransmissions then
      let r := transportFindParentNode env st1
      (r.1, effCat e1 r.2, false)
    else (st1, e1, false)

/-- The repeater routing body of `transportSendRoute` (lines 457-531), i.e.
everything after the AUTO guards and the signing coordinator.  Note that the
known-downstream-route and gateway-broadcast paths return directly, skipping
the failure escalation, exactly as the `return` statements do in the source. -/
def sendRouteCore (env : Env) (st : State) (message : MyMessage) :
    State × Eff × Bool :=
  let lastV := message.last
  let sender := message.sender
  let dest := message.destination
  if dest = GATEWAY_ADDRESS then
    let st1 := { st with routes := fun a => if a = sender then lastV % 256 else st.routes a }
    let r := transportSendWrite env st1.nc st1.nc.parentNodeId message
    sendRouteFinish env st1 { eff0 with sent := [r.2.2] } r.2.1
  else
    let route := if dest ≠ BROADCAST_ADDRESS then readByte st.routes dest
                 else BROADCAST_ADDRESS
    if GATEWAY_ADDRESS < route ∧ route < BROADCAST_ADDRESS then
      let r := transportSendWrite env st.nc route message
      (st, { eff0 with sent := [r.2.2] }, r.2.1)
    else if sender = GATEWAY_ADDRESS ∧ dest = BROADCAST_ADDRESS then
      let r := transportSendWrite env st.nc BROADCAST_ADDRESS message
      (st, { eff0 with sent := [r.2.2] }, r.2.1)
    else
      let r := transportSendWrite env st.nc st.nc.parentNodeId message
      let st1 := { st with routes := fun a => if a = sender then lastV % 256 else st.routes a }
      sendRouteFinish env st1 { eff0 with sent := [r.2.2] } r.2.1

/-- The signing coordinator of `transportSendRoute` (lines 420-447): send
the nonce request, wait for the nonce by draining the loop, and on success
transmit the signed saved copy.  The inner `while` loop re-enters
`_process()`; its cumulative effect on the state is the environment's
`drainState` and the elapsed time at loop exit is `drainElapsed`.  The
recursive `_sendRoute` call that transmits the nonce request reduces to
`sendRouteCore` because both AUTO guards were just checked on unchanged
fields and `I_GET_NONCE` is handshake-exempt, so the inner call cannot
re-enter the coordinator. -/
def signingBranch (env : Env) (st : State) (message : MyMessage) :
    State × Eff × Bool :=
  let st1 := { st with signingNonceStatus := SIGN_WAITING_FOR_NONCE }
  let req := msgSetEmpty (build blankMsg st1.nc.nodeId message.destination
               message.sensor C_INTERNAL I_GET_NONCE false)
  let r1 := sendRouteCore env st1 { req with version := PROTOCOL_VERSION }
  if r1.2.2 = false then (r1.1, r1.2.1, false)
  else
    let st2 := { r1.1 with msgSign := message }
    let st3 := env.drainState st2
    if MY_VERIFICATION_TIMEOUT_MS < env.drainElapsed then
      (st3, { r1.2.1 with errBlinks := r1.2.1.errBlinks + 1 }, false)
    else if st3.signingNonceStatus = SIGN_OK then
      let r2 := sendRouteCore env st3 st3.msgSign
      (r2.1, effCat r1.2.1 r2.2.1, r2.2.2)
    else
      (st3, { r1.2.1 with errBlinks := r1.2.1.errBlinks + 1 }, false)

/-- `_sendRoute` / `transportSendRoute` (lines 389-532). -/
def transportSendRoute (env : Env) (st : State) (message0 : MyMessage) :
    State × Eff × Bool :=
  if st.nc.parentNodeId = AUTO then
    let r := transportFindParentNode env st
    (r.1, { r.2 with errBlinks := r.2.errBlinks + 1 }, false)
  else if st.nc.nodeId = AUTO then
    let r := transportRequestNodeId env st
    (r.1, { r.2 with errBlinks := r.2.errBlinks + 1 }, false)
  else
    let message := { message0 with version := PROTOCOL_VERSION }
    if signingCase st message then
      signingBranch env st message
    else
      let message1 := if st.nc.nodeId = message.sender
                      then { message with signedFlag := false } else message
      sendRouteCore env st message1

/-! ## Node presentation (lines 543-591) -/

/-- Modelled from the spec where it leaves the given sources: the
`present(...)` call inside `transportPresentNode` lives in the host layer
and is the environment's `presentHook`.  The rest follows lines 543-591 for
the configuration at hand (non-gateway, signing with request-signatures,
OTA): announce the signing preference, present, request the configuration,
then request the firmware config, clearing `_fwUpdateOngoing`. -/
def transportPresentNode (env : Env) (st : State) : State × Eff :=
  if st.nc.nodeId ≠ AUTO then
    let m1 := msgSetByte (build blankMsg st.nc.nodeId GATEWAY_ADDRESS
                NODE_SENSOR_ID C_INTERNAL I_REQUEST_SIGNING false) 1
    let r1 := transportSendRoute env st m1
    let stA := env.presentHook (env.waitHook r1.1)
    let m2 := msgSetByte (build blankMsg stA.nc.nodeId GATEWAY_ADDRESS
                NODE_SENSOR_ID C_INTERNAL I_CONFIG false) stA.nc.parentNodeId
    let r2 := transportSendRoute env stA m2
    let stC := env.waitHook r2.1
    let stD := { stC with fwUpdateOngoing := false }
    let m3 := { build blankMsg stD.nc.nodeId GATEWAY_ADDRESS NODE_SENSOR_ID
                  C_STREAM ST_FIRMWARE_CONFIG_REQUEST false with
                payload := le16 stD.fc.fwType ++ le16 stD.fc.fwVersion ++
                           le16 stD.fc.blocks ++ le16 stD.fc.crc ++ le16 1,
                length := 10, payloadType := P_CUSTOM }
    let r3 := transportSendRoute env stD m3
    (r3.1, effCat r1.2.1 (effCat r2.2.1 r3.2.1))
  else (st, eff0)

/-! ## The processing loop (`transportProcess`, lines 45-350) -/

/-- The `RequestFWBlock` message of the OTA idle branch (lines 62-67):
three 16-bit fields (type, version, block = `_fwBlock - 1` in 16-bit
arithmetic), length 6. -/
def mkFwRequest (st : State) : MyMessage :=
  { build blankMsg st.nc.nodeId GATEWAY_ADDRESS NODE_SENSOR_ID C_STREAM
      ST_FIRMWARE_REQUEST false with
    payload := le16 st.fc.fwType ++ le16 st.fc.fwVersion ++
               le16 ((st.fwBlock + 65535) % 65536),
    length := 6 }

/-- Dispatch by `(command, type)` for a frame addressed to this node
(lines 159-309), after route learning and the ack reply. -/
def dispatchToSelf (env : Env) (st : State) (e : Eff) (msg : MyMessage) :
    State × Eff :=
  let sender := msg.sender
  let t := msg.type
  if msg.command = C_INTERNAL then
    if t = I_FIND_PARENT_RESPONSE then
      if st.autoFindParent then
        let d := msgGetByte msg
        if d ≠ DISTANCE_INVALID then
          let d1 := (d + 1) % 256
          if d1 ≠ DISTANCE_INVALID ∧ d1 < st.nc.distance then
            ({ st with nc := { st.nc with distance := d1, parentNodeId := sender } }, e)
          else (st, e)
        else (st, e)
      else (st, e)
    else if t = I_GET_NONCE then
      if env.getNonceOk then
        let resp := { build msg st.nc.nodeId sender NODE_SENSOR_ID C_INTERNAL
                        I_GET_NONCE_RESPONSE false with
                      payload := env.nonce, length := env.nonce.length }
        let r := transportSendRoute env st resp
        (r.1, effCat e r.2.1)
      else (st, e)
    else if t = I_REQUEST_SIGNING then
      ({ st with doSign := fun a => if a = sender then msgGetBool msg else st.doSign a }, e)
    else if t = I_GET_NONCE_RESPONSE then
      if env.putNonceSignOk then
        ({ st with msgSign := env.signMsg st.msgSign,
                   signingNonceStatus := SIGN_OK }, e)
      else (st, e)
    else if sender = GATEWAY_ADDRESS then
      if t = I_ID_RESPONSE ∧ st.nc.nodeId = AUTO then
        let newId := msgGetByte msg
        let st1 := { st with nc := { st.nc with nodeId := newId } }
        if newId = AUTO then (st1, { e with halted := true })
        else
          let r := transportPresentNode env st1
          (r.1, effCat e r.2)
      else (env.processInternal st, e)
    else (st, { e with callbackRun := true })
  else if msg.command = C_STREAM then
    if t = ST_FIRMWARE_CONFIG_RESPONSE then
      let newFc := decodeFwConfig msg.payload
      if newFc ≠ st.fc then
        let st1 := { st with fc := newFc }
        if env.flashInitOk = false then
          ({ st1 with fwUpdateOngoing := false }, e)
        else
          ({ st1 with flash := fun a => if a < 32768 then 255 else st1.flash a,
                      fwBlock := newFc.blocks, fwUpdateOngoing := true,
                      fwRetry := MY_OTA_RETRY + 1, fwLastRequestTime := 0 }, e)
      else (st, { e with callbackRun := true })
    else if t = ST_FIRMWARE_RESPONSE then
      if st.fwUpdateOngoing then
        let wb := (st.fwBlock + 65535) % 65536
        let st1 := { st with
          flash := writeBytes st.flash
                     ((wb * FIRMWARE_BLOCK_SIZE + FIRMWARE_START_OFFSET) % 65536)
                     (fwBlockData msg),
          fwBlock := wb }
        if wb = 0 then
          let st2 := { st1 with fwUpdateOngoing := false }
          if transportIsValidFirmware st2 then
            let fwsize := FIRMWARE_BLOCK_SIZE * st2.fc.blocks % 65536
            let hdr := [70, 76, 88, 73, 77, 71, 58, fwsize / 256, fwsize % 256, 58]
            let st3 := { st2 with flash := writeBytes st2.flash 0 hdr }
            (st3, { e with fcPersisted := true, rebooted := true })
          else
            ({ st2 with fwRetry := MY_OTA_RETRY + 1, fwLastRequestTime := 0 }, e)
        else
          ({ st1 with fwRetry := MY_OTA_RETRY + 1, fwLastRequestTime := 0 }, e)
      else (st, e)
    else (st, { e with callbackRun := true })
  else (st, { e with callbackRun := true })

/-- The repeater route-learning step (lines 141-146): when the immediate
hop differs from the parent, record `routes[sender] := last`. -/
def learnRoute (st : State) (msg : MyMessage) : State :=
  if msg.last ≠ st.nc.parentNodeId then
    { st with routes := fun a => if a = msg.sender then msg.last % 256 else st.routes a }
  else st

/-- The ack copy of lines 149-157: same frame with the request bit cleared,
the ack bit set, and sender/destination swapped in. -/
def ackReplyMsg (nodeId : Nat) (m : MyMessage) : MyMessage :=
  { m with reqAck := false, ack := true, sender := nodeId,
           destination := m.sender }

/-- Processing of an accepted frame addressed to this node (lines 137-309):
clear the signed flag, learn a route when `last` differs from the parent,
answer an ack request, then dispatch. -/
def processToSelf (env : Env) (st : State) (e : Eff) (msg0 : MyMessage) :
    State × Eff :=
  let msg := { msg0 with signedFlag := false }
  let st1 := learnRoute st msg
  let (st2, e2) :=
    if msg.reqAck then
      let r := transportSendRoute env st1 (ackReplyMsg st1.nc.nodeId msg)
      (r.1, effCat e r.2.1)
    else (st1, e)
  dispatchToSelf env st2 e2 msg

/-- The tail of the loop for frames not addressed to this node: broadcast
`I_DISCOVER` handling (lines 310-327) and the repeater block (lines
328-349). -/
def processOther (env : Env) (st : State) (e : Eff) (msg : MyMessage)
    (toAddr : Nat) : State × Eff :=
  if msg.destination = BROADCAST_ADDRESS ∧ msg.command = C_INTERNAL ∧
     msg.type = I_DISCOVER ∧ msg.last = st.nc.parentNodeId then
    let st1 := env.waitHook st
    let resp := msgSetByte (build blankMsg st1.nc.nodeId msg.sender
                  NODE_SENSOR_ID C_INTERNAL I_DISCOVER_RESPONSE false)
                  st1.nc.parentNodeId
    let r1 := transportSendRoute env st1 resp
    let r2 := transportSendRoute env r1.1 msg
    (r2.1, effCat e (effCat r1.2.1 r2.2.1))
  else if st.nc.nodeId ≠ AUTO then
    if msg.command = C_INTERNAL ∧ msg.type = I_FIND_PARENT then
      if msg.sender ≠ st.nc.parentNodeId then
        let (st1, e1) :=
          if st.nc.distance = DISTANCE_INVALID then
            let r := transportFindParentNode env st
            (r.1, effCat e r.2)
          else (st, e)
        if st1.nc.distance ≠ DISTANCE_INVALID then
          let st2 := env.waitHook st1
          let resp := msgSetByte (build blankMsg st2.nc.nodeId msg.sender
                        NODE_SENSOR_ID C_INTERNAL I_FIND_PARENT_RESPONSE false)
                        st2.nc.distance
          let r := transportSendWrite env st2.nc msg.sender resp
          (st2, effCat e1 { eff0 with sent := [r.2.2] })
        else (st1, e1)
      else (st, e)
    else if toAddr = st.nc.nodeId then
      let r := transportSendRoute env st msg
      (r.1, effCat e r.2.1)
    else (st, e)
  else (st, e)

/-- The version check (line 131) and the destination split (lines 137, 310).
This runs after the signing pre-check, exactly as in the source. -/
def processAccepted (env : Env) (st : State) (e : Eff) (msg : MyMessage)
    (toAddr : Nat) : State × Eff :=
  if msg.version ≠ PROTOCOL_VERSION then
    (st, { e with errBlinks := e.errBlinks + 1 })
  else if msg.destination = st.nc.nodeId then
    processToSelf env st e msg
  else
    processOther env st e msg toAddr

/-- `transportProcess` (lines 45-350).  With no frame available the call
runs only the OTA idle branch and returns; the signer timer tick (line 74)
and the frame read happen only when a frame is available.  With a frame,
the inbound signing pre-check (lines 87-113) runs before the
protocol-version check (line 131). -/
def transportProcess (env : Env) (st : State) : State × Eff :=
  match env.available with
  | none =>
    if st.fwUpdateOngoing ∧ MY_OTA_RETRY_DELAY < env.millis - st.fwLastRequestTime then
      if st.fwRetry = 0 then
        ({ st with fwUpdateOngoing := false }, { eff0 with errBlinks := 1 })
      else
        let st1 := { st with fwRetry := st.fwRetry - 1,
                             fwLastRequestTime := env.millis }
        let r := transportSendRoute env st1 (mkFwRequest st1)
        (r.1, r.2.1)
    else (st, eff0)
  | some toAddr =>
    let e0 : Eff := { eff0 with signerTicks := 1, frameRead := true }
    let msg := env.received
    if signCheckDomain st msg then
      if msg.signedFlag = false then
        (st, { e0 with errBlinks := 1 })
      else
        let e1 := { e0 with verifyInvoked := true }
        if env.verifyOk msg = false then
          (st, { e1 with errBlinks := 1 })
        else processAccepted env st e1 msg toAddr
    else processAccepted env st e0 msg toAddr


/-! ## Helper lemmas about emitted frames -/

theorem sendWrite_msg (env : Env) (nc : NodeConfig) (dst : Nat) (m : MyMessage) :
    (transportSendWrite env nc dst m).2.2.msg =
      { m with version := PROTOCOL_VERSION, last := nc.nodeId } := rfl

theorem findParent_sent (env : Env) (st : State) :
    ∀ fr ∈ (transportFindParentNode env st).2.sent,
      fr.msg.signedFlag = false ∧ fr.msg.command = C_INTERNAL ∧
      fr.msg.type = I_FIND_PARENT := by
  intro fr hfr
  unfold transportFindParentNode at hfr
  dsimp only at hfr
  split at hfr
  · simp [eff0] at hfr
  · simp only [List.mem_singleton] at hfr
    subst hfr
    exact ⟨rfl, rfl, rfl⟩

theorem sendRouteFinish_sent (env : Env) (st : State) (e : Eff) (ok : Bool) :
    ∀ fr ∈ (sendRouteFinish env st e ok).2.1.sent,
      fr ∈ e.sent ∨ (fr.msg.signedFlag = false ∧ fr.msg.command = C_INTERNAL ∧
        fr.msg.type = I_FIND_PARENT) := by
  intro fr hfr
  unfold sendRouteFinish at hfr
  dsimp only at hfr
  split at hfr
  · exact Or.inl hfr
  · split at hfr
    · simp only [effCat, List.mem_append] at hfr
      rcases hfr with h | h
      · exact Or.inl h
      · exact Or.inr (findParent_sent env _ fr h)
    · exact Or.inl hfr

theorem sendRouteCore_sent (env : Env) (st : State) (m : MyMessage) :
    ∀ fr ∈ (sendRouteCore env st m).2.1.sent,
      (fr.msg.signedFlag = m.signedFlag ∧ fr.msg.command = m.command ∧
        fr.msg.type = m.type) ∨
      (fr.msg.signedFlag = false ∧ fr.msg.command = C_INTERNAL ∧
        fr.msg.type = I_FIND_PARENT) := by
  intro fr hfr
  unfold sendRouteCore at hfr
  dsimp only at hfr
  repeat' split at hfr
  all_goals
    first
    | (rcases sendRouteFinish_sent _ _ _ _ fr hfr with h | h
       · (simp only [List.mem_singleton] at h; subst h
          exact Or.inl ⟨rfl, rfl, rfl⟩)
       · exact Or.inr h)
    | (simp only [List.mem_singleton] at hfr; subst hfr
       exact Or.inl ⟨rfl, rfl, rfl⟩)

theorem signingBranch_timeout (env : Env) (st : State) (m : MyMessage)
    (hdrain : ∀ s, (env.drainState s).signingNonceStatus = SIGN_WAITING_FOR_NONCE) :
    (signingBranch env st m).2.2 = false ∧
    ∀ fr ∈ (signingBranch env st m).2.1.sent,
      fr.msg.signedFlag = false ∧ fr.msg.command = C_INTERNAL ∧
      (fr.msg.type = I_GET_NONCE ∨ fr.msg.type = I_FIND_PARENT) := by
  unfold signingBranch
  dsimp only
  have hreqsent : ∀ st' fr,
      fr ∈ (sendRouteCore env st'
        ({ msgSetEmpty (build blankMsg st'.nc.nodeId m.destination m.sensor
             C_INTERNAL I_GET_NONCE false) with
           version := PROTOCOL_VERSION } : MyMessage)).2.1.sent →
      fr.msg.signedFlag = false ∧ fr.msg.command = C_INTERNAL ∧
      (fr.msg.type = I_GET_NONCE ∨ fr.msg.type = I_FIND_PARENT) := by
    intro st' fr hfr
    rcases sendRouteCore_sent env st' _ fr hfr with h | h
    · exact ⟨h.1, h.2.1, Or.inl h.2.2⟩
    · exact ⟨h.1, h.2.1, Or.inr h.2.2⟩
  split
  · exact ⟨rfl, hreqsent _⟩
  · split
    · exact ⟨rfl, hreqsent _⟩
    · rw [if_neg (by rw [hdrain]; decide)]
      exact ⟨rfl, hreqsent _⟩

/-! ## Concrete fixtures for the witnesses -/

/-- A concrete quiescent environment used by the witnesses. -/
def baseEnv : Env :=
  ⟨none, blankMsg, 0, fun _ _ => true, fun _ => true, true, [], true, id, true,
   id, 0, id, id, id⟩

/-- A concrete repeater-node state used by the witnesses: node 10 under
parent 1 at distance 2, empty routing table, no session in flight. -/
def baseState : State :=
  ⟨⟨10, 1, 2⟩, true, 0, fun _ => 255, fun _ => false, 0, blankMsg,
   ⟨1, 1, 1, 2⟩, false, 0, 0, 0, fun _ => 0, false⟩

/-! ## Claim C7 -/

/-- C7: for every message and next-hop address, `transportSendWrite` stamps
the protocol version into the message, sets its `last` field to this node's
id, passes the radio driver an on-wire length of `MAX_MESSAGE_LENGTH` when
the signed flag is set and `HEADER_SIZE + length` when it is not, and
returns exactly the driver's success flag. -/
theorem sendWrite_contract (env : Env) (nc : NodeConfig) (dst : Nat)
    (m : MyMessage) (h : m.length ≤ MAX_PAYLOAD) :
    (transportSendWrite env nc dst m).1.version = PROTOCOL_VERSION ∧
    (transportSendWrite env nc dst m).1.last = nc.nodeId ∧
    (transportSendWrite env nc dst m).2.2.wireLen =
      (if m.signedFlag then MAX_MESSAGE_LENGTH else HEADER_SIZE + m.length) ∧
    (transportSendWrite env nc dst m).2.1 =
      env.sendOk dst (transportSendWrite env nc dst m).1 := by
  refine ⟨rfl, rfl, ?_, rfl⟩
  unfold transportSendWrite
  dsimp only
  cases hs : m.signedFlag <;>
    simp [hs, MAX_MESSAGE_LENGTH, HEADER_SIZE, MAX_PAYLOAD] at *
  · omega

theorem sendWrite_contract_witness :
    blankMsg.length ≤ MAX_PAYLOAD ∧
    ((transportSendWrite baseEnv ⟨10, 1, 2⟩ 1 blankMsg).1.version = PROTOCOL_VERSION ∧
     (transportSendWrite baseEnv ⟨10, 1, 2⟩ 1 blankMsg).1.last = 10 ∧
     (transportSendWrite baseEnv ⟨10, 1, 2⟩ 1 blankMsg).2.2.wireLen =
       (if blankMsg.signedFlag then MAX_MESSAGE_LENGTH else HEADER_SIZE + blankMsg.length) ∧
     (transportSendWrite baseEnv ⟨10, 1, 2⟩ 1 blankMsg).2.1 =
       baseEnv.sendOk 1 (transportSendWrite baseEnv ⟨10, 1, 2⟩ 1 blankMsg).1) :=
  ⟨by decide, sendWrite_contract baseEnv ⟨10, 1, 2⟩ 1 blankMsg (by decide)⟩

/-! ## Claim C8 -/

/-- C8: calling `transportFindParentNode` while a previous invocation is in
progress is a no-op: the reentrant call returns immediately, changes no
state, and broadcasts nothing. -/
theorem findParent_reentrant (env : Env) (st : State)
    (h : st.findingParentNode = true) :
    transportFindParentNode env st = (st, eff0) := by
  unfold transportFindParentNode
  simp [h]

theorem findParent_reentrant_witness :
    ({ baseState with findingParentNode := true } : State).findingParentNode = true ∧
    transportFindParentNode baseEnv { baseState with findingParentNode := true } =
      ({ baseState with findingParentNode := true }, eff0) :=
  ⟨rfl, findParent_reentrant baseEnv _ rfl⟩

/-! ## Claim C10 -/

/-- C10: a message originated by this node (`sender = node_id`) that does
not enter the signing coordinator (destination not sign-required, or an
ack, or a handshake-exempt internal subtype) has its signed flag cleared
before transmission: no frame emitted by `transportSendRoute` for it has
the signed bit set. -/
theorem sendRoute_unsigned_when_exempt (env : Env) (st : State) (m : MyMessage)
    (hs : m.sender = st.nc.nodeId)
    (hc : st.doSign m.destination = false ∨ m.ack = true ∨
          (m.command = C_INTERNAL ∧ handshakeExempt m.type = true)) :
    ∀ fr ∈ (transportSendRoute env st m).2.1.sent, fr.msg.signedFlag = false := by
  intro fr hfr
  unfold transportSendRoute at hfr
  dsimp only at hfr
  split at hfr
  · exact (findParent_sent env st fr (by simpa using hfr)).1
  · split at hfr
    · simp only [transportRequestNodeId, List.mem_singleton] at hfr
      have : fr = (transportSendWrite env st.nc st.nc.parentNodeId
          (msgSetEmpty (build blankMsg st.nc.nodeId GATEWAY_ADDRESS
            NODE_SENSOR_ID C_INTERNAL I_ID_REQUEST false))).2.2 := by
        simpa using hfr
      subst this
      rfl
    · have hcase : signingCase st { m with version := PROTOCOL_VERSION } = false := by
        unfold signingCase
        rcases hc with h | h | h
        · simp [h]
        · simp [h]
        · simp [h.1, h.2, C_INTERNAL]
      rw [if_neg (by simp [hcase])] at hfr
      rcases sendRouteCore_sent env st _ fr hfr with h | h
      · rw [h.1]
        split
        · rfl
        · rename_i hne
          exact absurd (by simpa using hs.symm) hne
      · exact h.1

/-- A message from node 10 to peer 7, with the signed bit set by the
caller. -/
def selfMsg : MyMessage :=
  { blankMsg with sender := 10, destination := 7, signedFlag := true }

theorem sendRoute_unsigned_when_exempt_witness :
    selfMsg.sender = baseState.nc.nodeId ∧
    baseState.doSign selfMsg.destination = false ∧
    ∀ fr ∈ (transportSendRoute baseEnv baseState selfMsg).2.1.sent,
      fr.msg.signedFlag = false :=
  ⟨rfl, rfl, sendRoute_unsigned_when_exempt baseEnv baseState selfMsg rfl (Or.inl rfl)⟩

/-! ## Claim C4 -/

/-- C4: if `transportSendRoute` enters the signing coordinator and no nonce
response arrives within the verification window, it returns false and the
saved outbound message is never transmitted: every frame it emitted is
unsigned and is only the nonce request or a parent-discovery ping. -/
theorem sendRoute_nonce_timeout (env : Env) (st : State) (m : MyMessage)
    (hp : st.nc.parentNodeId ≠ AUTO) (hn : st.nc.nodeId ≠ AUTO)
    (hcase : signingCase st { m with version := PROTOCOL_VERSION } = true)
    (hdrain : ∀ s, (env.drainState s).signingNonceStatus = SIGN_WAITING_FOR_NONCE) :
    (transportSendRoute env st m).2.2 = false ∧
    ∀ fr ∈ (transportSendRoute env st m).2.1.sent,
      fr.msg.signedFlag = false ∧ fr.msg.command = C_INTERNAL ∧
      (fr.msg.type = I_GET_NONCE ∨ fr.msg.type = I_FIND_PARENT) := by
  unfold transportSendRoute
  rw [if_neg hp, if_neg hn]
  dsimp only
  rw [if_pos (by simpa using hcase)]
  exact signingBranch_timeout env st _ hdrain

/-- An environment in which the nonce never arrives: the drained state's
signing status stays WAITING_FOR_NONCE. -/
def noNonceEnv : Env :=
  { baseEnv with drainState :=
      fun s => { s with signingNonceStatus := SIGN_WAITING_FOR_NONCE } }

/-- A state in which peer 7 requires signed messages. -/
def signReqState : State := { baseState with doSign := fun a => a == 7 }

theorem sendRoute_nonce_timeout_witness :
    signReqState.nc.parentNodeId ≠ AUTO ∧ signReqState.nc.nodeId ≠ AUTO ∧
    signingCase signReqState { selfMsg with version := PROTOCOL_VERSION } = true ∧
    (∀ s, (noNonceEnv.drainState s).signingNonceStatus = SIGN_WAITING_FOR_NONCE) ∧
    ((transportSendRoute noNonceEnv signReqState selfMsg).2.2 = false ∧
     ∀ fr ∈ (transportSendRoute noNonceEnv signReqState selfMsg).2.1.sent,
       fr.msg.signedFlag = false ∧ fr.msg.command = C_INTERNAL ∧
       (fr.msg.type = I_GET_NONCE ∨ fr.msg.type = I_FIND_PARENT)) :=
  ⟨by decide, by decide, by decide, fun s => rfl,
   sendRoute_nonce_timeout noNonceEnv signReqState selfMsg (by decide) (by decide)
     (by decide) (fun s => rfl)⟩

/-! ## Quiet-effect and firmware-preservation helper lemmas -/


def quiet (e : Eff) : Prop := e.signerTicks = 0 ∧ e.frameRead = false

theorem quiet_findParent (env : Env) (st : State) :
    quiet (transportFindParentNode env st).2 := by
  unfold transportFindParentNode
  dsimp only
  split
  · exact ⟨rfl, rfl⟩
  · exact ⟨rfl, rfl⟩

theorem quiet_effCat {a b : Eff} (ha : quiet a) (hb : quiet b) :
    quiet (effCat a b) := by
  obtain ⟨ha1, ha2⟩ := ha
  obtain ⟨hb1, hb2⟩ := hb
  exact ⟨by simp [effCat, ha1, hb1], by simp [effCat, ha2, hb2]⟩

theorem quiet_sendRouteFinish (env : Env) (st : State) (e : Eff) (ok : Bool)
    (he : quiet e) : quiet (sendRouteFinish env st e ok).2.1 := by
  unfold sendRouteFinish
  dsimp only
  split
  · exact he
  · split
    · exact quiet_effCat ⟨he.1, he.2⟩ (quiet_findParent env _)
    · exact he

theorem quiet_sendRouteCore (env : Env) (st : State) (m : MyMessage) :
    quiet (sendRouteCore env st m).2.1 := by
  unfold sendRouteCore
  dsimp only
  repeat' split
  all_goals
    first
    | exact quiet_sendRouteFinish _ _ _ _ ⟨rfl, rfl⟩
    | exact ⟨rfl, rfl⟩

theorem quiet_signingBranch (env : Env) (st : State) (m : MyMessage) :
    quiet (signingBranch env st m).2.1 := by
  unfold signingBranch
  dsimp only
  split
  · exact quiet_sendRouteCore _ _ _
  · split
    · exact ⟨(quiet_sendRouteCore env _ _).1, (quiet_sendRouteCore env _ _).2⟩
    · split
      · exact quiet_effCat (quiet_sendRouteCore _ _ _) (quiet_sendRouteCore _ _ _)
      · exact ⟨(quiet_sendRouteCore env _ _).1, (quiet_sendRouteCore env _ _).2⟩

theorem quiet_sendRoute (env : Env) (st : State) (m : MyMessage) :
    quiet (transportSendRoute env st m).2.1 := by
  unfold transportSendRoute
  dsimp only
  split
  · exact ⟨(quiet_findParent env st).1, (quiet_findParent env st).2⟩
  · split
    · exact ⟨rfl, rfl⟩
    · split
      · exact quiet_signingBranch _ _ _
      · exact quiet_sendRouteCore _ _ _

theorem sendRouteFinish_sent_append (env : Env) (st : State) (e : Eff) (ok : Bool) :
    ∃ extra, (sendRouteFinish env st e ok).2.1.sent = e.sent ++ extra := by
  unfold sendRouteFinish
  dsimp only
  split
  · exact ⟨[], by simp⟩
  · split
    · exact ⟨_, rfl⟩
    · exact ⟨[], by simp⟩

theorem sendRoute_head_cmd (env : Env) (st : State) (m : MyMessage)
    (hp : st.nc.parentNodeId ≠ AUTO) (hn : st.nc.nodeId ≠ AUTO)
    (hns : signingCase st { m with version := PROTOCOL_VERSION } = false)
    (hd : m.destination = GATEWAY_ADDRESS) :
    ∃ fr rest, (transportSendRoute env st m).2.1.sent = fr :: rest ∧
      fr.msg.command = m.command ∧ fr.msg.type = m.type := by
  unfold transportSendRoute
  rw [if_neg hp, if_neg hn]
  dsimp only
  rw [if_neg (by simp [hns])]
  unfold sendRouteCore
  dsimp only
  repeat' split
  all_goals
    obtain ⟨extra, hx⟩ := sendRouteFinish_sent_append env _ _ _
    exact ⟨_, extra, by rw [hx]; rfl, rfl, rfl⟩

def fwEq (s t : State) : Prop :=
  t.fwUpdateOngoing = s.fwUpdateOngoing ∧ t.fwBlock = s.fwBlock ∧
  t.fwRetry = s.fwRetry ∧ t.fwLastRequestTime = s.fwLastRequestTime ∧
  t.fc = s.fc ∧ ∀ a, t.flash a = s.flash a

theorem fwEq_refl (s : State) : fwEq s s := ⟨rfl, rfl, rfl, rfl, rfl, fun _ => rfl⟩

theorem fwEq_findParent (env : Env) (st : State) (hw : env.waitHook = id) :
    fwEq st (transportFindParentNode env st).1 := by
  unfold transportFindParentNode
  dsimp only
  split
  · exact fwEq_refl st
  · rw [hw]
    exact ⟨rfl, rfl, rfl, rfl, rfl, fun _ => rfl⟩

theorem fwEq_sendRouteFinish (env : Env) (st : State) (e : Eff) (ok : Bool)
    (hw : env.waitHook = id) : fwEq st (sendRouteFinish env st e ok).1 := by
  unfold sendRouteFinish
  dsimp only
  split
  · exact fwEq_refl st
  · split
    · exact fwEq_findParent env _ hw
    · exact fwEq_refl st

theorem fwEq_sendRouteCore (env : Env) (st : State) (m : MyMessage)
    (hw : env.waitHook = id) : fwEq st (sendRouteCore env st m).1 := by
  unfold sendRouteCore
  dsimp only
  repeat' split
  all_goals
    first
    | exact fwEq_sendRouteFinish env _ _ _ hw
    | exact fwEq_refl st

theorem fwEq_sendRoute_noSigning (env : Env) (st : State) (m : MyMessage)
    (hw : env.waitHook = id)
    (hns : signingCase st { m with version := PROTOCOL_VERSION } = false) :
    fwEq st (transportSendRoute env st m).1 := by
  unfold transportSendRoute
  dsimp only
  split
  · exact fwEq_findParent env st hw
  · split
    · unfold transportRequestNodeId
      dsimp only
      rw [hw]
      exact fwEq_refl st
    · rw [if_neg (by simp [hns])]
      exact fwEq_sendRouteCore env st _ hw

/-- C3 amended. -/
theorem process_idle_branch (env : Env) (st : State)
    (h : env.available = none)
    (hp : st.nc.parentNodeId ≠ AUTO) (hn : st.nc.nodeId ≠ AUTO)
    (hds : st.doSign GATEWAY_ADDRESS = false)
    (hw : env.waitHook = id) :
    (transportProcess env st).2.signerTicks = 0 ∧
    (transportProcess env st).2.frameRead = false ∧
    (¬(st.fwUpdateOngoing = true ∧
        MY_OTA_RETRY_DELAY < env.millis - st.fwLastRequestTime) →
      transportProcess env st = (st, eff0)) ∧
    (st.fwUpdateOngoing = true →
     MY_OTA_RETRY_DELAY < env.millis - st.fwLastRequestTime →
      (st.fwRetry = 0 →
        transportProcess env st =
          ({ st with fwUpdateOngoing := false }, { eff0 with errBlinks := 1 })) ∧
      (st.fwRetry ≠ 0 →
        (transportProcess env st).1.fwRetry = st.fwRetry - 1 ∧
        (transportProcess env st).1.fwLastRequestTime = env.millis ∧
        ∃ fr rest, (transportProcess env st).2.sent = fr :: rest ∧
          fr.msg.command = C_STREAM ∧ fr.msg.type = ST_FIRMWARE_REQUEST)) := by
  unfold transportProcess
  rw [h]
  dsimp only
  by_cases hA : st.fwUpdateOngoing = true ∧
      MY_OTA_RETRY_DELAY < env.millis - st.fwLastRequestTime
  · rw [if_pos hA]
    by_cases hR : st.fwRetry = 0
    · rw [if_pos hR]
      exact ⟨rfl, rfl, fun hno => absurd hA hno,
             fun _ _ => ⟨fun _ => rfl, fun hne => absurd hR hne⟩⟩
    · rw [if_neg hR]
      set st1 : State := { st with fwRetry := st.fwRetry - 1, fwLastRequestTime := env.millis } with hst1
      have hds0 : st1.doSign 0 = false := hds
      have hns : signingCase st1 { mkFwRequest st1 with version := PROTOCOL_VERSION } = false := by
        simp [signingCase, mkFwRequest, build, hds0, hds]
      have hfw := fwEq_sendRoute_noSigning env st1 (mkFwRequest st1) hw hns
      have hhead := sendRoute_head_cmd env st1 (mkFwRequest st1)
        (by rw [hst1]; exact hp) (by rw [hst1]; exact hn) hns rfl
      refine ⟨(quiet_sendRoute _ _ _).1, (quiet_sendRoute _ _ _).2,
              fun hno => absurd hA hno, fun _ _ => ⟨fun h0 => absurd h0 hR, fun _ => ?_⟩⟩
      obtain ⟨fr, rest, hsent, hcmd, htyp⟩ := hhead
      exact ⟨hfw.2.2.1, hfw.2.2.2.1, fr, rest, hsent, hcmd, htyp⟩
  · rw [if_neg hA]
    exact ⟨rfl, rfl, fun _ => rfl, fun h1 h2 => absurd ⟨h1, h2⟩ hA⟩


/-! ## Claim C2 (corrected: signing verification precedes the version check) -/


/-- C2 amended part. -/
theorem process_signing_before_version (env : Env) (st : State) (a : Nat)
    (ha : env.available = some a)
    (hdom : signCheckDomain st env.received = true)
    (hsig : env.received.signedFlag = true)
    (hver : env.received.version ≠ PROTOCOL_VERSION) :
    (transportProcess env st).2.verifyInvoked = true ∧
    (env.verifyOk env.received = true →
      (transportProcess env st).1 = st ∧
      (transportProcess env st).2.errBlinks = 1 ∧
      (transportProcess env st).2.sent = [] ∧
      (transportProcess env st).2.callbackRun = false) := by
  unfold transportProcess
  rw [ha]
  dsimp only
  rw [if_pos hdom, if_neg (by simp [hsig])]
  by_cases hv : env.verifyOk env.received = true
  · rw [if_neg (by simp [hv])]
    unfold processAccepted
    rw [if_pos hver]
    exact ⟨rfl, fun _ => ⟨rfl, rfl, rfl, rfl⟩⟩
  · rw [if_pos (by simpa using hv)]
    exact ⟨rfl, fun h => absurd h hv⟩

/-- C2 counterexample input: a frame with a wrong protocol version, signed,
addressed to this node and inside the signature-check domain. -/
def badVersionMsg : MyMessage :=
  { blankMsg with sender := 20, destination := 10, command := C_SET,
                  signedFlag := true, version := 3 }

def badVersionEnv : Env :=
  { baseEnv with available := some 10, received := badVersionMsg }

theorem process_version_counterexample :
    (transportProcess badVersionEnv baseState).2.verifyInvoked = true ∧
    (transportProcess badVersionEnv baseState).2.errBlinks = 1 := by
  decide

theorem process_signing_before_version_witness :
    badVersionEnv.available = some 10 ∧
    signCheckDomain baseState badVersionEnv.received = true ∧
    badVersionEnv.received.signedFlag = true ∧
    badVersionEnv.received.version ≠ PROTOCOL_VERSION ∧
    ((transportProcess badVersionEnv baseState).2.verifyInvoked = true ∧
     (badVersionEnv.verifyOk badVersionEnv.received = true →
       (transportProcess badVersionEnv baseState).1 = baseState ∧
       (transportProcess badVersionEnv baseState).2.errBlinks = 1 ∧
       (transportProcess badVersionEnv baseState).2.sent = [] ∧
       (transportProcess badVersionEnv baseState).2.callbackRun = false)) :=
  ⟨rfl, by decide, rfl, by decide,
   process_signing_before_version badVersionEnv baseState 10 rfl (by decide) rfl (by decide)⟩


/-- C3 counterexample input: no frame available, an OTA session active with
retries left and the delay elapsed. -/
def fwIdleState : State :=
  { baseState with fwUpdateOngoing := true, fwBlock := 1, fwRetry := 3,
                   fwLastRequestTime := 0 }

def idleEnv : Env := { baseEnv with millis := 1000 }

/-- C3 counterexample: the idle branch ran (the retry counter dropped from
3 to 2), yet the signing timer tick did not run, contradicting the claim
that the tick runs on the no-frame path. -/
theorem process_idle_no_tick_counterexample :
    (transportProcess idleEnv fwIdleState).2.signerTicks = 0 ∧
    (transportProcess idleEnv fwIdleState).1.fwRetry = 2 := by
  decide

theorem process_idle_branch_witness :
    idleEnv.available = none ∧
    fwIdleState.nc.parentNodeId ≠ AUTO ∧ fwIdleState.nc.nodeId ≠ AUTO ∧
    fwIdleState.doSign GATEWAY_ADDRESS = false ∧ idleEnv.waitHook = id ∧
    ((transportProcess idleEnv fwIdleState).2.signerTicks = 0 ∧
     (transportProcess idleEnv fwIdleState).2.frameRead = false ∧
     (¬(fwIdleState.fwUpdateOngoing = true ∧
         MY_OTA_RETRY_DELAY < idleEnv.millis - fwIdleState.fwLastRequestTime) →
       transportProcess idleEnv fwIdleState = (fwIdleState, eff0)) ∧
     (fwIdleState.fwUpdateOngoing = true →
      MY_OTA_RETRY_DELAY < idleEnv.millis - fwIdleState.fwLastRequestTime →
       (fwIdleState.fwRetry = 0 →
         transportProcess idleEnv fwIdleState =
           ({ fwIdleState with fwUpdateOngoing := false },
            { eff0 with errBlinks := 1 })) ∧
       (fwIdleState.fwRetry ≠ 0 →
         (transportProcess idleEnv fwIdleState).1.fwRetry = fwIdleState.fwRetry - 1 ∧
         (transportProcess idleEnv fwIdleState).1.fwLastRequestTime = idleEnv.millis ∧
         ∃ fr rest, (transportProcess idleEnv fwIdleState).2.sent = fr :: rest ∧
           fr.msg.command = C_STREAM ∧ fr.msg.type = ST_FIRMWARE_REQUEST))) :=
  ⟨rfl, by decide, by decide, rfl, rfl,
   process_idle_branch idleEnv fwIdleState rfl (by decide) (by decide) rfl rfl⟩

/-! ## Claim C9 -/


theorem fwEq_trans {s t u : State} (h1 : fwEq s t) (h2 : fwEq t u) : fwEq s u := by
  obtain ⟨a1, b1, c1, d1, e1, f1⟩ := h1
  obtain ⟨a2, b2, c2, d2, e2, f2⟩ := h2
  exact ⟨a2.trans a1, b2.trans b1, c2.trans c1, d2.trans d1, e2.trans e1,
         fun a => (f2 a).trans (f1 a)⟩

theorem fwEq_learnRoute (st : State) (msg : MyMessage) :
    fwEq st (learnRoute st msg) := by
  unfold learnRoute
  split
  · exact ⟨rfl, rfl, rfl, rfl, rfl, fun _ => rfl⟩
  · exact fwEq_refl st

theorem dispatch_fwResponse_noSession (env : Env) (st : State) (e : Eff)
    (msg : MyMessage) (hcmd : msg.command = C_STREAM)
    (htyp : msg.type = ST_FIRMWARE_RESPONSE)
    (hfw : st.fwUpdateOngoing = false) :
    (dispatchToSelf env st e msg).1 = st := by
  unfold dispatchToSelf
  simp [hcmd, htyp, hfw, C_STREAM, C_INTERNAL, ST_FIRMWARE_CONFIG_RESPONSE,
        ST_FIRMWARE_RESPONSE]

theorem processToSelf_fw (env : Env) (st : State) (e : Eff) (msg : MyMessage)
    (hcmd : msg.command = C_STREAM) (htyp : msg.type = ST_FIRMWARE_RESPONSE)
    (hfw : st.fwUpdateOngoing = false) (hw : env.waitHook = id) :
    fwEq st (processToSelf env st e msg).1 := by
  unfold processToSelf
  dsimp only
  have hq1 := fwEq_learnRoute st { msg with signedFlag := false }
  split
  · -- ack requested
    have hns : signingCase (learnRoute st { msg with signedFlag := false })
        { ackReplyMsg (learnRoute st { msg with signedFlag := false }).nc.nodeId
            { msg with signedFlag := false } with version := PROTOCOL_VERSION } = false := by
      simp [signingCase, ackReplyMsg]
    have hq2 := fwEq_sendRoute_noSigning env _ _ hw hns
    have hq3 := fwEq_trans hq1 hq2
    rw [dispatch_fwResponse_noSession env _ _ ({ msg with signedFlag := false }) hcmd htyp (hq3.1.trans hfw)]
    exact hq3
  · dsimp only
    rw [dispatch_fwResponse_noSession env _ _ ({ msg with signedFlag := false }) hcmd htyp (hq1.1.trans hfw)]
    exact hq1

/-- C9: for every received STREAM/FIRMWARE_RESPONSE frame addressed to
this node while no OTA session is active, transportProcess writes nothing
to flash and leaves the firmware session state (active flag, next block,
retry counter, last request time) and the stored firmware config
unchanged. -/
theorem process_fwResponse_no_session (env : Env) (st : State) (a : Nat)
    (ha : env.available = some a)
    (hdst : env.received.destination = st.nc.nodeId)
    (hcmd : env.received.command = C_STREAM)
    (htyp : env.received.type = ST_FIRMWARE_RESPONSE)
    (hfw : st.fwUpdateOngoing = false)
    (hw : env.waitHook = id) :
    fwEq st (transportProcess env st).1 := by
  have hbody : ∀ e : Eff, fwEq st (processAccepted env st e env.received a).1 := by
    intro e
    unfold processAccepted
    split
    · exact fwEq_refl st
    · exact processToSelf_fw env st e env.received hcmd htyp hfw hw
  unfold transportProcess
  rw [ha]
  dsimp only
  split
  · split
    · exact fwEq_refl st
    · split
      · exact fwEq_refl st
      · exact hbody _
  · exact hbody _


/-- C9 witness fixture: a firmware response arriving with no session. -/
def fwRespMsg : MyMessage :=
  { blankMsg with sender := 0, destination := 10, command := C_STREAM,
                  type := ST_FIRMWARE_RESPONSE, signedFlag := true,
                  version := PROTOCOL_VERSION, payload := [0, 0, 0, 0, 0, 0] }

def fwRespEnv : Env := { baseEnv with available := some 10, received := fwRespMsg }

theorem process_fwResponse_no_session_witness :
    fwRespEnv.available = some 10 ∧
    fwRespEnv.received.destination = baseState.nc.nodeId ∧
    fwRespEnv.received.command = C_STREAM ∧
    fwRespEnv.received.type = ST_FIRMWARE_RESPONSE ∧
    baseState.fwUpdateOngoing = false ∧
    fwRespEnv.waitHook = id ∧
    fwEq baseState (transportProcess fwRespEnv baseState).1 :=
  ⟨rfl, rfl, rfl, rfl, rfl, rfl,
   process_fwResponse_no_session fwRespEnv baseState 10 rfl rfl rfl rfl rfl rfl⟩

/-! ## Claim C6 -/


theorem writeBytes_eval (bs : List Nat) : ∀ (f : Nat → Nat) (addr x : Nat),
    writeBytes f addr bs x =
      if addr ≤ x ∧ x < addr + bs.length then bs.getD (x - addr) 0 % 256
      else f x := by
  induction bs with
  | nil =>
    intro f addr x
    have hno : ¬(addr ≤ x ∧ x < addr + ([] : List Nat).length) := by
      simp
    rw [show writeBytes f addr [] = f from rfl, if_neg hno]
  | cons b rest ih =>
    intro f addr x
    rw [writeBytes, ih]
    by_cases h1 : addr + 1 ≤ x ∧ x < addr + 1 + rest.length
    · rw [if_pos h1, if_pos (by simp; omega)]
      have hx : x - addr = (x - (addr + 1)) + 1 := by omega
      rw [hx]
      simp [List.getD]
    · rw [if_neg h1]
      by_cases h2 : x = addr
      · rw [if_pos h2, if_pos (by simp; omega)]
        rw [h2]
        simp [List.getD]
      · rw [if_neg h2, if_neg (by simp; omega)]

/-- No reboot and no config persistence in an effect record. -/
def noReboot (e : Eff) : Prop := e.rebooted = false ∧ e.fcPersisted = false

theorem noReboot_findParent (env : Env) (st : State) :
    noReboot (transportFindParentNode env st).2 := by
  unfold transportFindParentNode
  dsimp only
  split
  · exact ⟨rfl, rfl⟩
  · exact ⟨rfl, rfl⟩

theorem noReboot_effCat {a b : Eff} (ha : noReboot a) (hb : noReboot b) :
    noReboot (effCat a b) := by
  obtain ⟨ha1, ha2⟩ := ha
  obtain ⟨hb1, hb2⟩ := hb
  exact ⟨by simp [effCat, ha1, hb1], by simp [effCat, ha2, hb2]⟩

theorem noReboot_sendRouteFinish (env : Env) (st : State) (e : Eff) (ok : Bool)
    (he : noReboot e) : noReboot (sendRouteFinish env st e ok).2.1 := by
  unfold sendRouteFinish
  dsimp only
  split
  · exact he
  · split
    · exact noReboot_effCat ⟨he.1, he.2⟩ (noReboot_findParent env _)
    · exact he

theorem noReboot_sendRouteCore (env : Env) (st : State) (m : MyMessage) :
    noReboot (sendRouteCore env st m).2.1 := by
  unfold sendRouteCore
  dsimp only
  repeat' split
  all_goals
    first
    | exact noReboot_sendRouteFinish _ _ _ _ ⟨rfl, rfl⟩
    | exact ⟨rfl, rfl⟩

theorem noReboot_signingBranch (env : Env) (st : State) (m : MyMessage) :
    noReboot (signingBranch env st m).2.1 := by
  unfold signingBranch
  dsimp only
  split
  · exact noReboot_sendRouteCore _ _ _
  · split
    · exact ⟨(noReboot_sendRouteCore env _ _).1, (noReboot_sendRouteCore env _ _).2⟩
    · split
      · exact noReboot_effCat (noReboot_sendRouteCore _ _ _) (noReboot_sendRouteCore _ _ _)
      · exact ⟨(noReboot_sendRouteCore env _ _).1, (noReboot_sendRouteCore env _ _).2⟩

theorem noReboot_sendRoute (env : Env) (st : State) (m : MyMessage) :
    noReboot (transportSendRoute env st m).2.1 := by
  unfold transportSendRoute
  dsimp only
  split
  · exact ⟨(noReboot_findParent env st).1, (noReboot_findParent env st).2⟩
  · split
    · exact ⟨rfl, rfl⟩
    · split
      · exact noReboot_signingBranch _ _ _
      · exact noReboot_sendRouteCore _ _ _

/-- The last-block arm of the STREAM/FIRMWARE_RESPONSE dispatch. -/
theorem dispatch_fw_last_block (env : Env) (st2 : State) (e : Eff)
    (msg : MyMessage) (hcmd : msg.command = C_STREAM)
    (htyp : msg.type = ST_FIRMWARE_RESPONSE)
    (hfw2 : st2.fwUpdateOngoing = true) (hblk2 : st2.fwBlock = 1)
    (he : noReboot e) :
    (dispatchToSelf env st2 e msg).1.fwUpdateOngoing = false ∧
    (dispatchToSelf env st2 e msg).1.fwBlock = 0 ∧
    (dispatchToSelf env st2 e msg).1.fc = st2.fc ∧
    ((dispatchToSelf env st2 e msg).2.rebooted =
      (crc16Image (writeBytes st2.flash FIRMWARE_START_OFFSET (fwBlockData msg))
        st2.fc.blocks == st2.fc.crc)) ∧
    ((dispatchToSelf env st2 e msg).2.fcPersisted =
      (crc16Image (writeBytes st2.flash FIRMWARE_START_OFFSET (fwBlockData msg))
        st2.fc.blocks == st2.fc.crc)) ∧
    ((crc16Image (writeBytes st2.flash FIRMWARE_START_OFFSET (fwBlockData msg))
        st2.fc.blocks == st2.fc.crc) = true →
      (dispatchToSelf env st2 e msg).1.flash =
        writeBytes (writeBytes st2.flash FIRMWARE_START_OFFSET (fwBlockData msg)) 0
          [70, 76, 88, 73, 77, 71, 58,
           FIRMWARE_BLOCK_SIZE * st2.fc.blocks % 65536 / 256,
           FIRMWARE_BLOCK_SIZE * st2.fc.blocks % 65536 % 256, 58]) ∧
    ((crc16Image (writeBytes st2.flash FIRMWARE_START_OFFSET (fwBlockData msg))
        st2.fc.blocks == st2.fc.crc) = false →
      (dispatchToSelf env st2 e msg).1.flash =
        writeBytes st2.flash FIRMWARE_START_OFFSET (fwBlockData msg)) := by
  unfold dispatchToSelf
  rw [if_neg (by rw [hcmd]; decide), if_pos (by rw [hcmd]),
      if_neg (by rw [htyp]; decide), if_pos (by rw [htyp]), if_pos hfw2]
  dsimp only
  rw [hblk2]
  rw [show ((1 + 65535) % 65536 : Nat) = 0 from by norm_num]
  rw [show ((0 * FIRMWARE_BLOCK_SIZE + FIRMWARE_START_OFFSET) % 65536 : Nat) =
        FIRMWARE_START_OFFSET from by norm_num [FIRMWARE_BLOCK_SIZE, FIRMWARE_START_OFFSET]]
  rw [if_pos rfl]
  split
  · rename_i hcrc
    unfold transportIsValidFirmware at hcrc
    dsimp only at hcrc
    rw [hcrc]
    refine ⟨rfl, rfl, rfl, rfl, rfl, fun _ => rfl, fun hfalse => ?_⟩
    simp at hfalse
  · rename_i hcrc
    have hcrc' : (crc16Image (writeBytes st2.flash FIRMWARE_START_OFFSET
        (fwBlockData msg)) st2.fc.blocks == st2.fc.crc) = false := by
      unfold transportIsValidFirmware at hcrc
      dsimp only at hcrc
      simpa using hcrc
    rw [hcrc']
    refine ⟨rfl, rfl, rfl, he.1, he.2, fun htrue => ?_, fun _ => rfl⟩
    simp at htrue




/-- C6: when the last firmware block arrives (fwBlock = 1), the session is
closed, the CRC-16 pass is run over the staged image, and iff it matches
the config CRC the FLXIMG header is written at offset 0, the config is
persisted and reboot is invoked; on mismatch none of those happen. -/
theorem process_fw_last_block (env : Env) (st : State) (a : Nat)
    (ha : env.available = some a)
    (hdst : env.received.destination = st.nc.nodeId)
    (hver : env.received.version = PROTOCOL_VERSION)
    (hcmd : env.received.command = C_STREAM)
    (htyp : env.received.type = ST_FIRMWARE_RESPONSE)
    (hsig : env.received.signedFlag = true)
    (hvok : env.verifyOk env.received = true)
    (hfw : st.fwUpdateOngoing = true)
    (hblk : st.fwBlock = 1)
    (hbl : st.fc.blocks ≤ 4095)
    (hw : env.waitHook = id) :
    (transportProcess env st).1.fwUpdateOngoing = false ∧
    (transportProcess env st).1.fwBlock = 0 ∧
    ((transportProcess env st).2.rebooted =
      (crc16Image (writeBytes st.flash FIRMWARE_START_OFFSET (fwBlockData env.received))
        st.fc.blocks == st.fc.crc)) ∧
    ((transportProcess env st).2.fcPersisted =
      (crc16Image (writeBytes st.flash FIRMWARE_START_OFFSET (fwBlockData env.received))
        st.fc.blocks == st.fc.crc)) ∧
    ((crc16Image (writeBytes st.flash FIRMWARE_START_OFFSET (fwBlockData env.received))
        st.fc.blocks == st.fc.crc) = true →
      ∀ i, i < 10 →
        (transportProcess env st).1.flash i =
          [70, 76, 88, 73, 77, 71, 58, FIRMWARE_BLOCK_SIZE * st.fc.blocks / 256,
           FIRMWARE_BLOCK_SIZE * st.fc.blocks % 256, 58].getD i 0 % 256) ∧
    ((crc16Image (writeBytes st.flash FIRMWARE_START_OFFSET (fwBlockData env.received))
        st.fc.blocks == st.fc.crc) = true →
      ∀ x, 10 ≤ x →
        (transportProcess env st).1.flash x =
          writeBytes st.flash FIRMWARE_START_OFFSET (fwBlockData env.received) x) ∧
    ((crc16Image (writeBytes st.flash FIRMWARE_START_OFFSET (fwBlockData env.received))
        st.fc.blocks == st.fc.crc) = false →
      ∀ x, (transportProcess env st).1.flash x =
        writeBytes st.flash FIRMWARE_START_OFFSET (fwBlockData env.received) x) := by
  have hmod : FIRMWARE_BLOCK_SIZE * st.fc.blocks % 65536 =
      FIRMWARE_BLOCK_SIZE * st.fc.blocks := by
    have : FIRMWARE_BLOCK_SIZE * st.fc.blocks < 65536 := by
      unfold FIRMWARE_BLOCK_SIZE
      omega
    exact Nat.mod_eq_of_lt this
  have hbody : ∀ (e : Eff), noReboot e →
      (processAccepted env st e env.received a).1.fwUpdateOngoing = false ∧
      (processAccepted env st e env.received a).1.fwBlock = 0 ∧
      ((processAccepted env st e env.received a).2.rebooted =
        (crc16Image (writeBytes st.flash FIRMWARE_START_OFFSET (fwBlockData env.received))
          st.fc.blocks == st.fc.crc)) ∧
      ((processAccepted env st e env.received a).2.fcPersisted =
        (crc16Image (writeBytes st.flash FIRMWARE_START_OFFSET (fwBlockData env.received))
          st.fc.blocks == st.fc.crc)) ∧
      ((crc16Image (writeBytes st.flash FIRMWARE_START_OFFSET (fwBlockData env.received))
          st.fc.blocks == st.fc.crc) = true →
        ∀ i, i < 10 →
          (processAccepted env st e env.received a).1.flash i =
            [70, 76, 88, 73, 77, 71, 58, FIRMWARE_BLOCK_SIZE * st.fc.blocks / 256,
             FIRMWARE_BLOCK_SIZE * st.fc.blocks % 256, 58].getD i 0 % 256) ∧
      ((crc16Image (writeBytes st.flash FIRMWARE_START_OFFSET (fwBlockData env.received))
          st.fc.blocks == st.fc.crc) = true →
        ∀ x, 10 ≤ x →
          (processAccepted env st e env.received a).1.flash x =
            writeBytes st.flash FIRMWARE_START_OFFSET (fwBlockData env.received) x) ∧
      ((crc16Image (writeBytes st.flash FIRMWARE_START_OFFSET (fwBlockData env.received))
          st.fc.blocks == st.fc.crc) = false →
        ∀ x, (processAccepted env st e env.received a).1.flash x =
          writeBytes st.flash FIRMWARE_START_OFFSET (fwBlockData env.received) x) := by
    intro e he
    unfold processAccepted
    rw [if_neg (by simp [hver]), if_pos hdst]
    unfold processToSelf
    dsimp only
    have hgen : ∀ (st2 : State) (e2 : Eff), fwEq st st2 → noReboot e2 →
        (dispatchToSelf env st2 e2 { env.received with signedFlag := false }).1.fwUpdateOngoing = false ∧
        (dispatchToSelf env st2 e2 { env.received with signedFlag := false }).1.fwBlock = 0 ∧
        ((dispatchToSelf env st2 e2 { env.received with signedFlag := false }).2.rebooted =
          (crc16Image (writeBytes st.flash FIRMWARE_START_OFFSET (fwBlockData env.received))
            st.fc.blocks == st.fc.crc)) ∧
        ((dispatchToSelf env st2 e2 { env.received with signedFlag := false }).2.fcPersisted =
          (crc16Image (writeBytes st.flash FIRMWARE_START_OFFSET (fwBlockData env.received))
            st.fc.blocks == st.fc.crc)) ∧
        ((crc16Image (writeBytes st.flash FIRMWARE_START_OFFSET (fwBlockData env.received))
            st.fc.blocks == st.fc.crc) = true →
          ∀ i, i < 10 →
            (dispatchToSelf env st2 e2 { env.received with signedFlag := false }).1.flash i =
              [70, 76, 88, 73, 77, 71, 58, FIRMWARE_BLOCK_SIZE * st.fc.blocks / 256,
               FIRMWARE_BLOCK_SIZE * st.fc.blocks % 256, 58].getD i 0 % 256) ∧
        ((crc16Image (writeBytes st.flash FIRMWARE_START_OFFSET (fwBlockData env.received))
            st.fc.blocks == st.fc.crc) = true →
          ∀ x, 10 ≤ x →
            (dispatchToSelf env st2 e2 { env.received with signedFlag := false }).1.flash x =
              writeBytes st.flash FIRMWARE_START_OFFSET (fwBlockData env.received) x) ∧
        ((crc16Image (writeBytes st.flash FIRMWARE_START_OFFSET (fwBlockData env.received))
            st.fc.blocks == st.fc.crc) = false →
          ∀ x, (dispatchToSelf env st2 e2 { env.received with signedFlag := false }).1.flash x =
            writeBytes st.flash FIRMWARE_START_OFFSET (fwBlockData env.received) x) := by
      intro st2 e2 hq hne
      have hfl : st2.flash = st.flash := funext hq.2.2.2.2.2
      have hfc : st2.fc = st.fc := hq.2.2.2.2.1
      have hd := dispatch_fw_last_block env st2 e2 { env.received with signedFlag := false }
        hcmd htyp (hq.1.trans hfw) (hq.2.1.trans hblk) hne
      rw [hfl, hfc] at hd
      obtain ⟨h1, h2, h3, h4, h5, h6, h7⟩ := hd
      refine ⟨h1, h2, h4, h5, ?_, ?_, ?_⟩
      · intro hok i hi
        rw [h6 hok, writeBytes_eval]
        rw [if_pos ⟨Nat.zero_le i, by simpa using hi⟩]
        rw [Nat.sub_zero]
        rcases (by omega : i = 0 ∨ i = 1 ∨ i = 2 ∨ i = 3 ∨ i = 4 ∨ i = 5 ∨
          i = 6 ∨ i = 7 ∨ i = 8 ∨ i = 9) with
          rfl | rfl | rfl | rfl | rfl | rfl | rfl | rfl | rfl | rfl <;>
          simp [List.getD, hmod]
      · intro hok x hx
        rw [h6 hok, writeBytes_eval]
        rw [if_neg (by simp; omega)]
        rfl
      · intro hbad x
        rw [h7 hbad]
        rfl
    split
    · -- ack requested
      have hns : signingCase (learnRoute st { env.received with signedFlag := false })
          { ackReplyMsg (learnRoute st { env.received with signedFlag := false }).nc.nodeId
              { env.received with signedFlag := false } with version := PROTOCOL_VERSION } = false := by
        simp [signingCase, ackReplyMsg]
      have hq1 := fwEq_learnRoute st { env.received with signedFlag := false }
      have hq2 := fwEq_sendRoute_noSigning env _ _ hw hns
      exact hgen _ _ (fwEq_trans hq1 hq2)
        (noReboot_effCat he (noReboot_sendRoute env _ _))
    · exact hgen _ _ (fwEq_learnRoute st _) he
  unfold transportProcess
  rw [ha]
  dsimp only
  split
  · rw [if_neg (by simp [hsig]), if_neg (by simp [hvok])]
    exact hbody _ ⟨rfl, rfl⟩
  · exact hbody _ ⟨rfl, rfl⟩




/-- C6 witness fixture: a one-block session about to finish; 61630 is the
CRC-16 (0xA001, init 0xFFFF) of sixteen zero bytes. -/
def fwDoneState : State :=
  { baseState with fwUpdateOngoing := true, fwBlock := 1, fc := ⟨1, 1, 1, 61630⟩ }

theorem process_fw_last_block_witness :
    fwRespEnv.available = some 10 ∧
    fwRespEnv.received.destination = fwDoneState.nc.nodeId ∧
    fwRespEnv.received.version = PROTOCOL_VERSION ∧
    fwRespEnv.received.command = C_STREAM ∧
    fwRespEnv.received.type = ST_FIRMWARE_RESPONSE ∧
    fwRespEnv.received.signedFlag = true ∧
    fwRespEnv.verifyOk fwRespEnv.received = true ∧
    fwDoneState.fwUpdateOngoing = true ∧
    fwDoneState.fwBlock = 1 ∧
    fwDoneState.fc.blocks ≤ 4095 ∧
    fwRespEnv.waitHook = id ∧
    ((transportProcess fwRespEnv fwDoneState).1.fwUpdateOngoing = false ∧
     (transportProcess fwRespEnv fwDoneState).1.fwBlock = 0 ∧
     ((transportProcess fwRespEnv fwDoneState).2.rebooted =
       (crc16Image (writeBytes fwDoneState.flash FIRMWARE_START_OFFSET
          (fwBlockData fwRespEnv.received)) fwDoneState.fc.blocks == fwDoneState.fc.crc)) ∧
     ((transportProcess fwRespEnv fwDoneState).2.fcPersisted =
       (crc16Image (writeBytes fwDoneState.flash FIRMWARE_START_OFFSET
          (fwBlockData fwRespEnv.received)) fwDoneState.fc.blocks == fwDoneState.fc.crc)) ∧
     ((crc16Image (writeBytes fwDoneState.flash FIRMWARE_START_OFFSET
          (fwBlockData fwRespEnv.received)) fwDoneState.fc.blocks == fwDoneState.fc.crc) = true →
       ∀ i, i < 10 →
         (transportProcess fwRespEnv fwDoneState).1.flash i =
           [70, 76, 88, 73, 77, 71, 58, FIRMWARE_BLOCK_SIZE * fwDoneState.fc.blocks / 256,
            FIRMWARE_BLOCK_SIZE * fwDoneState.fc.blocks % 256, 58].getD i 0 % 256) ∧
     ((crc16Image (writeBytes fwDoneState.flash FIRMWARE_START_OFFSET
          (fwBlockData fwRespEnv.received)) fwDoneState.fc.blocks == fwDoneState.fc.crc) = true →
       ∀ x, 10 ≤ x →
         (transportProcess fwRespEnv fwDoneState).1.flash x =
           writeBytes fwDoneState.flash FIRMWARE_START_OFFSET (fwBlockData fwRespEnv.received) x) ∧
     ((crc16Image (writeBytes fwDoneState.flash FIRMWARE_START_OFFSET
          (fwBlockData fwRespEnv.received)) fwDoneState.fc.blocks == fwDoneState.fc.crc) = false →
       ∀ x, (transportProcess fwRespEnv fwDoneState).1.flash x =
         writeBytes fwDoneState.flash FIRMWARE_START_OFFSET (fwBlockData fwRespEnv.received) x)) :=
  ⟨rfl, rfl, rfl, rfl, rfl, rfl, rfl, rfl, rfl, by decide, rfl,
   process_fw_last_block fwRespEnv fwDoneState 10 rfl rfl rfl rfl rfl rfl rfl rfl rfl
     (by decide) rfl⟩


/-! ## Claim C1 (corrected: a requested ack can still write the table) -/


theorem routes_findParent (env : Env) (st : State) (hw : env.waitHook = id) :
    (transportFindParentNode env st).1.routes = st.routes := by
  unfold transportFindParentNode
  dsimp only
  split
  · rfl
  · rw [hw]
    rfl

theorem routes_sendRouteFinish (env : Env) (st : State) (e : Eff) (ok : Bool)
    (hw : env.waitHook = id) :
    (sendRouteFinish env st e ok).1.routes = st.routes := by
  unfold sendRouteFinish
  dsimp only
  split
  · rfl
  · split
    · exact routes_findParent env _ hw
    · rfl

theorem sendRoute_routes (env : Env) (st : State) (m : MyMessage)
    (hw : env.waitHook = id)
    (hns : signingCase st { m with version := PROTOCOL_VERSION } = false) :
    ∀ x, (transportSendRoute env st m).1.routes x = st.routes x ∨
      (x = m.sender ∧ (transportSendRoute env st m).1.routes x = m.last % 256) := by
  intro x
  unfold transportSendRoute
  dsimp only
  split
  · rw [routes_findParent env st hw]
    exact Or.inl rfl
  · split
    · unfold transportRequestNodeId
      dsimp only
      rw [hw]
      exact Or.inl rfl
    · rw [if_neg (by simp [hns])]
      unfold sendRouteCore
      dsimp only
      repeat' split
      all_goals
        first
        | (rw [routes_sendRouteFinish env _ _ _ hw]
           dsimp only
           by_cases hx : x = m.sender
           · exact Or.inr ⟨hx, by rw [if_pos hx]⟩
           · rw [if_neg hx]
             exact Or.inl rfl)
        | exact Or.inl rfl

theorem dispatch_routes_pres (env : Env) (st : State) (e : Eff) (msg : MyMessage)
    (hn : st.nc.nodeId ≠ AUTO) (hpi : env.processInternal = id)
    (hng : ¬(msg.command = C_INTERNAL ∧ msg.type = I_GET_NONCE)) :
    (dispatchToSelf env st e msg).1.routes = st.routes := by
  unfold dispatchToSelf
  dsimp only
  repeat' split
  all_goals first
    | rfl
    | (rw [hpi]; rfl)
    | (exact absurd (by assumption :
        msg.type = I_ID_RESPONSE ∧ st.nc.nodeId = AUTO).2 hn)
    | (exact absurd ⟨(by assumption : msg.command = C_INTERNAL),
        (by assumption : msg.type = I_GET_NONCE)⟩ hng)

theorem dispatch_routes_bound (env : Env) (st : State) (e : Eff) (msg : MyMessage)
    (hn : st.nc.nodeId ≠ AUTO) (hpi : env.processInternal = id)
    (hw : env.waitHook = id) :
    ∀ x, (dispatchToSelf env st e msg).1.routes x = st.routes x ∨
      (dispatchToSelf env st e msg).1.routes x = msg.last % 256 := by
  intro x
  unfold dispatchToSelf
  dsimp only
  repeat' split
  all_goals first
    | exact Or.inl rfl
    | (rw [hpi]; exact Or.inl rfl)
    | (exact absurd (by assumption :
        msg.type = I_ID_RESPONSE ∧ st.nc.nodeId = AUTO).2 hn)
    | (rcases sendRoute_routes env st
        ({ build msg st.nc.nodeId msg.sender NODE_SENSOR_ID C_INTERNAL I_GET_NONCE_RESPONSE false with payload := env.nonce, length := env.nonce.length })
        hw (by simp [signingCase, build, handshakeExempt, C_INTERNAL, I_GET_NONCE_RESPONSE]) x with h | h
       · exact Or.inl h
       · exact Or.inr h.2)





theorem nodeId_findParent (env : Env) (st : State) (hw : env.waitHook = id) :
    (transportFindParentNode env st).1.nc.nodeId = st.nc.nodeId := by
  unfold transportFindParentNode
  dsimp only
  split
  · rfl
  · rw [hw]
    rfl

theorem nodeId_sendRouteFinish (env : Env) (st : State) (e : Eff) (ok : Bool)
    (hw : env.waitHook = id) :
    (sendRouteFinish env st e ok).1.nc.nodeId = st.nc.nodeId := by
  unfold sendRouteFinish
  dsimp only
  split
  · rfl
  · split
    · exact nodeId_findParent env _ hw
    · rfl

theorem nodeId_sendRouteCore (env : Env) (st : State) (m : MyMessage)
    (hw : env.waitHook = id) :
    (sendRouteCore env st m).1.nc.nodeId = st.nc.nodeId := by
  unfold sendRouteCore
  dsimp only
  repeat' split
  all_goals
    first
    | exact nodeId_sendRouteFinish env _ _ _ hw
    | rfl

theorem nodeId_sendRoute_noSigning (env : Env) (st : State) (m : MyMessage)
    (hw : env.waitHook = id)
    (hns : signingCase st { m with version := PROTOCOL_VERSION } = false) :
    (transportSendRoute env st m).1.nc.nodeId = st.nc.nodeId := by
  unfold transportSendRoute
  dsimp only
  split
  · exact nodeId_findParent env st hw
  · split
    · unfold transportRequestNodeId
      dsimp only
      rw [hw]
      rfl
    · rw [if_neg (by simp [hns])]
      exact nodeId_sendRouteCore env st _ hw


theorem nodeId_learnRoute (st : State) (m : MyMessage) :
    (learnRoute st m).nc.nodeId = st.nc.nodeId := by
  unfold learnRoute
  split
  · rfl
  · rfl

/-- C1 amended: for an accepted frame addressed to this node on a repeater,
`routes[sender] = last` after processing whenever `last` differs from the
parent; when `last` equals the parent the route-learning step is skipped,
and the table is untouched provided processing emits no reply (no ack
request and not a GET_NONCE frame). -/
theorem process_route_learning (env : Env) (st : State) (a : Nat)
    (ha : env.available = some a)
    (hdst : env.received.destination = st.nc.nodeId)
    (hver : env.received.version = PROTOCOL_VERSION)
    (hacc : signCheckDomain st env.received = false ∨
      (env.received.signedFlag = true ∧ env.verifyOk env.received = true))
    (hn : st.nc.nodeId ≠ AUTO)
    (hpi : env.processInternal = id)
    (hw : env.waitHook = id)
    (hlast : env.received.last < 256) :
    (env.received.last ≠ st.nc.parentNodeId →
      (transportProcess env st).1.routes env.received.sender = env.received.last) ∧
    (env.received.last = st.nc.parentNodeId → env.received.reqAck = false →
      ¬(env.received.command = C_INTERNAL ∧ env.received.type = I_GET_NONCE) →
      ∀ x, (transportProcess env st).1.routes x = st.routes x) := by
  have hbody : ∀ e : Eff,
      (env.received.last ≠ st.nc.parentNodeId →
        (processAccepted env st e env.received a).1.routes env.received.sender =
          env.received.last) ∧
      (env.received.last = st.nc.parentNodeId → env.received.reqAck = false →
        ¬(env.received.command = C_INTERNAL ∧ env.received.type = I_GET_NONCE) →
        ∀ x, (processAccepted env st e env.received a).1.routes x = st.routes x) := by
    intro e
    unfold processAccepted
    rw [if_neg (by simp [hver]), if_pos hdst]
    unfold processToSelf
    dsimp only
    constructor
    · intro hne
      have hmod : env.received.last % 256 = env.received.last :=
        Nat.mod_eq_of_lt hlast
      have hlearn : (learnRoute st { env.received with signedFlag := false }).routes
          env.received.sender = env.received.last % 256 := by
        unfold learnRoute
        rw [if_pos hne]
        dsimp only
        rw [if_pos rfl]
      split
      · -- ack requested
        have hns : signingCase (learnRoute st { env.received with signedFlag := false })
            { ackReplyMsg (learnRoute st { env.received with signedFlag := false }).nc.nodeId
                { env.received with signedFlag := false } with version := PROTOCOL_VERSION } = false := by
          simp [signingCase, ackReplyMsg]
        have hack := sendRoute_routes env _ _ hw hns env.received.sender
        have hmid : (transportSendRoute env
            (learnRoute st { env.received with signedFlag := false })
            (ackReplyMsg (learnRoute st { env.received with signedFlag := false }).nc.nodeId
              { env.received with signedFlag := false })).1.routes env.received.sender =
            env.received.last % 256 := by
          rcases hack with h | h
          · rw [h, hlearn]
          · exact h.2
        have hnode := nodeId_sendRoute_noSigning env
          (learnRoute st { env.received with signedFlag := false })
          (ackReplyMsg (learnRoute st { env.received with signedFlag := false }).nc.nodeId
            { env.received with signedFlag := false }) hw hns
        have hn2 : (transportSendRoute env
            (learnRoute st { env.received with signedFlag := false })
            (ackReplyMsg (learnRoute st { env.received with signedFlag := false }).nc.nodeId
              { env.received with signedFlag := false })).1.nc.nodeId ≠ AUTO := by
          rw [hnode, nodeId_learnRoute]
          exact hn
        rcases dispatch_routes_bound env _ _ { env.received with signedFlag := false }
            hn2 hpi hw env.received.sender with h | h
        · rw [h, hmid, hmod]
        · rw [h, hmod]
      · have hn1 : (learnRoute st { env.received with signedFlag := false }).nc.nodeId ≠ AUTO := by
          rw [nodeId_learnRoute]
          exact hn
        rcases dispatch_routes_bound env
            (learnRoute st { env.received with signedFlag := false }) e
            { env.received with signedFlag := false }
            hn1 hpi hw env.received.sender with h | h
        · rw [h, hlearn, hmod]
        · rw [h, hmod]
    · intro heq hreq hng
      intro x
      have hskip : learnRoute st { env.received with signedFlag := false } = st := by
        unfold learnRoute
        rw [if_neg (by simpa using heq)]
      rw [if_neg (by simp [hreq])]
      rw [hskip]
      rw [dispatch_routes_pres env st e { env.received with signedFlag := false } hn hpi hng]
  unfold transportProcess
  rw [ha]
  dsimp only
  split
  · rename_i hdom
    rcases hacc with hfalse | ⟨hsig, hvok⟩
    · rw [hdom] at hfalse
      exact absurd hfalse (by decide)
    · rw [if_neg (by simp [hsig]), if_neg (by simp [hvok])]
      exact hbody _
  · exact hbody _




/-- C1 counterexample input: an accepted frame from the gateway with
`last = parent_id` that requests an ack. -/
def ackTrapMsg : MyMessage :=
  { blankMsg with sender := 0, last := 1, destination := 10, command := C_SET,
                  reqAck := true, signedFlag := true, version := PROTOCOL_VERSION }

def ackTrapEnv : Env :=
  { baseEnv with available := some 10, received := ackTrapMsg }

/-- C1 counterexample: the frame's `last` equals the parent id, yet after
processing the routing table changed — answering the ack routed a reply to
the gateway, which wrote `routes[node_id] := last`. -/
theorem process_route_counterexample :
    ackTrapMsg.last = baseState.nc.parentNodeId ∧
    baseState.routes 10 = 255 ∧
    (transportProcess ackTrapEnv baseState).1.routes 10 = 1 := by
  decide

/-- C1 witness fixture: a plain accepted data frame from child 20 via
hop 15. -/
def childMsg : MyMessage :=
  { blankMsg with sender := 20, last := 15, destination := 10,
                  command := C_SET, signedFlag := true,
                  version := PROTOCOL_VERSION }

def childEnv : Env :=
  { baseEnv with available := some 10, received := childMsg }

theorem process_route_learning_witness :
    childEnv.available = some 10 ∧
    childEnv.received.destination = baseState.nc.nodeId ∧
    childEnv.received.version = PROTOCOL_VERSION ∧
    (childEnv.received.signedFlag = true ∧ childEnv.verifyOk childEnv.received = true) ∧
    baseState.nc.nodeId ≠ AUTO ∧
    childEnv.processInternal = id ∧
    childEnv.waitHook = id ∧
    childEnv.received.last < 256 ∧
    ((childEnv.received.last ≠ baseState.nc.parentNodeId →
      (transportProcess childEnv baseState).1.routes childEnv.received.sender =
        childEnv.received.last) ∧
     (childEnv.received.last = baseState.nc.parentNodeId →
      childEnv.received.reqAck = false →
      ¬(childEnv.received.command = C_INTERNAL ∧ childEnv.received.type = I_GET_NONCE) →
      ∀ x, (transportProcess childEnv baseState).1.routes x = baseState.routes x)) :=
  ⟨rfl, rfl, rfl, ⟨rfl, rfl⟩, by decide, rfl, rfl, by decide,
   process_route_learning childEnv baseState 10 rfl rfl rfl (Or.inr ⟨rfl, rfl⟩)
     (by decide) rfl rfl (by decide)⟩


/-! ## Claim C5 (corrected: an ack-requesting response can reset the search) -/


/-- The candidate distance a FIND_PARENT_RESPONSE offers, following the
spec's validity rules: the responder's distance byte must be valid (not
255) and so must the incremented value, i.e. the byte is at most 253;
the candidate is then `distance + 1`. -/
def candOf (f : MyMessage) : Option Nat :=
  if msgGetByte f + 1 < 255 then some (msgGetByte f + 1) else none

/-- Spec §8: the minimum observed `responder_distance + 1` among valid
responses, starting from the unknown distance 255. -/
def specMinDistance (fs : List MyMessage) : Nat :=
  (fs.filterMap candOf).foldl min 255

/-- The adoption rule of §4.3 as a fold step on the node context: adopt the
response's sender as parent iff its candidate distance is strictly below
the current one. -/
def adoptNC (nc : NodeConfig) (f : MyMessage) : NodeConfig :=
  match candOf f with
  | some c => if c < nc.distance then
      { nc with distance := c, parentNodeId := f.sender } else nc
  | none => nc

/-- Feeding a sequence of frames to the processing loop, one call each. -/
def processFrames (env : Env) (fs : List MyMessage) (st : State) : State :=
  fs.foldl (fun s f => (transportProcess { env with received := f } s).1) st

theorem nc_learnRoute (st : State) (m : MyMessage) :
    (learnRoute st m).nc = st.nc := by
  unfold learnRoute
  split
  · rfl
  · rfl

theorem autoFind_learnRoute (st : State) (m : MyMessage) :
    (learnRoute st m).autoFindParent = st.autoFindParent := by
  unfold learnRoute
  split
  · rfl
  · rfl

/-- One FIND_PARENT_RESPONSE frame updates the node context exactly by the
adoption rule, and leaves the auto-find flag alone. -/
theorem stepFPR (env : Env) (st : State) (f : MyMessage) (a : Nat)
    (ha : env.available = some a)
    (hdst : f.destination = st.nc.nodeId)
    (hver : f.version = PROTOCOL_VERSION)
    (hcmd : f.command = C_INTERNAL)
    (htyp : f.type = I_FIND_PARENT_RESPONSE)
    (hreq : f.reqAck = false)
    (hauto : st.autoFindParent = true) :
    (transportProcess { env with received := f } st).1.nc = adoptNC st.nc f ∧
    (transportProcess { env with received := f } st).1.autoFindParent = true := by
  unfold transportProcess
  dsimp only
  rw [ha]
  dsimp only
  rw [if_neg (by simp [signCheckDomain, handshakeExempt, hcmd, htyp, C_INTERNAL,
    I_FIND_PARENT_RESPONSE, I_GET_NONCE, I_GET_NONCE_RESPONSE, I_REQUEST_SIGNING,
    I_ID_REQUEST, I_ID_RESPONSE, I_FIND_PARENT, I_HEARTBEAT, I_HEARTBEAT_RESPONSE])]
  unfold processAccepted
  rw [if_neg (by simp [hver]), if_pos hdst]
  unfold processToSelf
  dsimp only
  rw [if_neg (by simp [hreq])]
  unfold dispatchToSelf
  rw [if_pos (show ({ f with signedFlag := false } : MyMessage).command = C_INTERNAL from hcmd),
      if_pos (show ({ f with signedFlag := false } : MyMessage).type = I_FIND_PARENT_RESPONSE from htyp)]
  rw [if_pos (show (learnRoute st { f with signedFlag := false }).autoFindParent = true from
        (autoFind_learnRoute st _).trans hauto)]
  dsimp only
  have hnc := nc_learnRoute st { f with signedFlag := false }
  have haf := autoFind_learnRoute st { f with signedFlag := false }
  have hlt : msgGetByte f < 256 := Nat.mod_lt _ (by norm_num)
  have hb : msgGetByte ({ f with signedFlag := false } : MyMessage) = msgGetByte f := rfl
  rcases Nat.lt_or_ge (msgGetByte f) 254 with hsmall | hbig
  · -- a genuine candidate d + 1 <= 254
    rw [if_pos (show msgGetByte ({ f with signedFlag := false } : MyMessage) ≠
          DISTANCE_INVALID from by rw [hb]; unfold DISTANCE_INVALID; omega)]
    have hmod : (msgGetByte ({ f with signedFlag := false } : MyMessage) + 1) % 256 =
        msgGetByte f + 1 := by
      rw [hb]
      omega
    rw [hmod]
    unfold adoptNC candOf
    rw [if_pos (show msgGetByte f + 1 < 255 from by omega)]
    dsimp only
    by_cases hlt2 : msgGetByte f + 1 < st.nc.distance
    · rw [if_pos (And.intro
        (show msgGetByte f + 1 ≠ DISTANCE_INVALID from by unfold DISTANCE_INVALID; omega)
        (show msgGetByte f + 1 < (learnRoute st { f with signedFlag := false }).nc.distance
          from by rw [hnc]; exact hlt2))]
      rw [if_pos hlt2]
      dsimp only
      rw [hnc]
      exact ⟨rfl, haf.trans hauto⟩
    · rw [if_neg (by rw [hnc]; intro hcon; exact hlt2 hcon.2), if_neg hlt2]
      dsimp only
      exact ⟨hnc, haf.trans hauto⟩
  · -- distance byte 254 or 255: no candidate
    unfold adoptNC candOf
    rw [if_neg (show ¬(msgGetByte f + 1 < 255) from by omega)]
    dsimp only
    by_cases h255 : msgGetByte f = 255
    · rw [if_neg (by rw [hb, h255]; unfold DISTANCE_INVALID; simp)]
      exact ⟨hnc, haf.trans hauto⟩
    · have h254 : msgGetByte f = 254 := by omega
      rw [if_pos (by rw [hb, h254]; unfold DISTANCE_INVALID; omega)]
      rw [if_neg (by rw [hb, h254]; unfold DISTANCE_INVALID; simp)]
      exact ⟨hnc, haf.trans hauto⟩




theorem adoptNC_nodeId (nc : NodeConfig) (f : MyMessage) :
    (adoptNC nc f).nodeId = nc.nodeId := by
  unfold adoptNC
  rcases candOf f with _ | c
  · rfl
  · dsimp only
    split
    · rfl
    · rfl

/-- Processing a wellformed sequence of FIND_PARENT_RESPONSE frames folds
the adoption rule over the node context. -/
theorem processFrames_adopt (env : Env) (a : Nat) (ha : env.available = some a) :
    ∀ (fs : List MyMessage) (st : State),
      st.autoFindParent = true →
      (∀ f ∈ fs, f.destination = st.nc.nodeId ∧ f.version = PROTOCOL_VERSION ∧
        f.command = C_INTERNAL ∧ f.type = I_FIND_PARENT_RESPONSE ∧ f.reqAck = false) →
      (processFrames env fs st).nc = fs.foldl adoptNC st.nc := by
  intro fs
  induction fs with
  | nil => intro st _ _; rfl
  | cons f fs ih =>
    intro st hauto hwf
    obtain ⟨hdst, hver, hcmd, htyp, hreq⟩ := hwf f (by simp)
    have hstep := stepFPR env st f a ha hdst hver hcmd htyp hreq hauto
    have hrec := ih (transportProcess { env with received := f } st).1
      (hstep.2)
      (by
        intro g hg
        obtain ⟨h1, h2, h3, h4, h5⟩ := hwf g (by simp [hg])
        refine ⟨?_, h2, h3, h4, h5⟩
        rw [hstep.1, adoptNC_nodeId]
        exact h1)
    show (processFrames env fs (transportProcess { env with received := f } st).1).nc =
      fs.foldl adoptNC (adoptNC st.nc f)
    rw [hrec, hstep.1]

theorem foldl_min_le_init (l : List Nat) : ∀ i, l.foldl min i ≤ i := by
  induction l with
  | nil => intro i; exact Nat.le_refl i
  | cons x l ih =>
    intro i
    calc (x :: l).foldl min i = l.foldl min (min i x) := rfl
    _ ≤ min i x := ih _
    _ ≤ i := Nat.min_le_left i x

/-- The adoption fold computes the running minimum of the candidates, and
the parent ends at the sender of the first response attaining it. -/
theorem adoptFold_spec (fs : List MyMessage) : ∀ nc : NodeConfig,
    (fs.foldl adoptNC nc).distance = (fs.filterMap candOf).foldl min nc.distance ∧
    ((fs.filterMap candOf).foldl min nc.distance < nc.distance →
      ∃ f, fs.find? (fun g => candOf g == some ((fs.filterMap candOf).foldl min nc.distance)) = some f ∧
        (fs.foldl adoptNC nc).parentNodeId = f.sender) ∧
    (¬ (fs.filterMap candOf).foldl min nc.distance < nc.distance →
      (fs.foldl adoptNC nc).parentNodeId = nc.parentNodeId) := by
  induction fs with
  | nil =>
    intro nc
    refine ⟨rfl, fun h => absurd h (by simp), fun _ => rfl⟩
  | cons f fs ih =>
    intro nc
    rcases hcf : candOf f with _ | c
    · -- no candidate: the frame is skipped on both sides
      have he1 : (f :: fs).foldl adoptNC nc = fs.foldl adoptNC nc := by
        show fs.foldl adoptNC (adoptNC nc f) = fs.foldl adoptNC nc
        rw [adoptNC, hcf]
      have he2 : (f :: fs).filterMap candOf = fs.filterMap candOf := by
        rw [List.filterMap_cons_none]
        exact hcf
      have he3 : ∀ m, (f :: fs).find? (fun g => candOf g == some m) =
          fs.find? (fun g => candOf g == some m) := by
        intro m
        rw [List.find?_cons_of_neg]
        simp [hcf]
      rw [he1, he2, he3]
      exact ih nc
    · -- candidate c
      have he1 : (f :: fs).foldl adoptNC nc = fs.foldl adoptNC (adoptNC nc f) := rfl
      have he2 : (f :: fs).filterMap candOf = c :: fs.filterMap candOf := by
        rw [List.filterMap_cons_some]
        exact hcf
      have hmle : (fs.filterMap candOf).foldl min (min nc.distance c) ≤ min nc.distance c :=
        foldl_min_le_init _ _
      by_cases hc : c < nc.distance
      · -- adopted now
        have hadopt : adoptNC nc f =
            { nc with distance := c, parentNodeId := f.sender } := by
          rw [adoptNC, hcf]
          dsimp only
          rw [if_pos hc]
        have hminr : min nc.distance c = c := Nat.min_eq_right (Nat.le_of_lt hc)
        obtain ⟨ihd, ihp1, ihp2⟩ := ih { nc with distance := c, parentNodeId := f.sender }
        rw [he1, he2, hadopt]
        refine ⟨?_, ?_, ?_⟩
        · rw [List.foldl_cons, hminr]
          exact ihd
        · intro hlt
          rw [List.foldl_cons, hminr] at hlt ⊢
          by_cases hmc : (fs.filterMap candOf).foldl min c < c
          · obtain ⟨g, hg1, hg2⟩ := ihp1 hmc
            refine ⟨g, ?_, hg2⟩
            rw [List.find?_cons_of_neg]
            · exact hg1
            · simp [hcf]
              omega
          · have hmeq : (fs.filterMap candOf).foldl min c = c := by
              have := foldl_min_le_init (fs.filterMap candOf) c
              omega
            refine ⟨f, ?_, ?_⟩
            · rw [List.find?_cons_of_pos]
              simp [hcf, hmeq]
            · exact ihp2 hmc
        · intro hge
          exfalso
          rw [List.foldl_cons, hminr] at hge
          have := foldl_min_le_init (fs.filterMap candOf) c
          omega
      · -- not adopted
        have hskip : adoptNC nc f = nc := by
          rw [adoptNC, hcf]
          dsimp only
          rw [if_neg hc]
        have hminl : min nc.distance c = nc.distance := Nat.min_eq_left (Nat.le_of_not_lt hc)
        obtain ⟨ihd, ihp1, ihp2⟩ := ih nc
        rw [he1, he2, hskip]
        refine ⟨?_, ?_, ?_⟩
        · rw [List.foldl_cons, hminl]
          exact ihd
        · intro hlt
          rw [List.foldl_cons, hminl] at hlt ⊢
          obtain ⟨g, hg1, hg2⟩ := ihp1 hlt
          refine ⟨g, ?_, hg2⟩
          rw [List.find?_cons_of_neg]
          · exact hg1
          · simp [hcf]
            have := foldl_min_le_init (fs.filterMap candOf) nc.distance
            omega
        · intro hge
          rw [List.foldl_cons, hminl] at hge
          exact ihp2 hge




/-- C5 amended: with auto-find on and starting from distance 255, a
sequence of valid, ack-free FIND_PARENT_RESPONSE frames leaves the distance
at the minimum candidate (`responder_distance + 1` over valid responses),
the parent at the sender of the first response attaining that minimum, and
each single frame is adopted exactly per the strict-improvement rule. -/
theorem process_findParent_min (env : Env) (a : Nat) (fs : List MyMessage)
    (st : State)
    (ha : env.available = some a)
    (hauto : st.autoFindParent = true)
    (hd0 : st.nc.distance = 255)
    (hwf : ∀ f ∈ fs, f.destination = st.nc.nodeId ∧ f.version = PROTOCOL_VERSION ∧
      f.command = C_INTERNAL ∧ f.type = I_FIND_PARENT_RESPONSE ∧ f.reqAck = false) :
    (processFrames env fs st).nc.distance = specMinDistance fs ∧
    (specMinDistance fs < 255 →
      ∃ f, fs.find? (fun g => candOf g == some (specMinDistance fs)) = some f ∧
        (processFrames env fs st).nc.parentNodeId = f.sender) ∧
    (¬ specMinDistance fs < 255 →
      (processFrames env fs st).nc.parentNodeId = st.nc.parentNodeId) ∧
    (∀ f, f.destination = st.nc.nodeId → f.version = PROTOCOL_VERSION →
      f.command = C_INTERNAL → f.type = I_FIND_PARENT_RESPONSE → f.reqAck = false →
      (transportProcess { env with received := f } st).1.nc = adoptNC st.nc f) := by
  have hfold := processFrames_adopt env a ha fs st hauto hwf
  obtain ⟨hda, hp1, hp2⟩ := adoptFold_spec fs st.nc
  rw [hd0] at hda hp1 hp2
  refine ⟨?_, ?_, ?_, ?_⟩
  · rw [hfold, hda]
    rfl
  · intro hlt
    obtain ⟨f, h1, h2⟩ := hp1 hlt
    exact ⟨f, h1, by rw [hfold]; exact h2⟩
  · intro hge
    rw [hfold]
    exact hp2 hge
  · intro f h1 h2 h3 h4 h5
    exact (stepFPR env st f a ha h1 h2 h3 h4 h5 hauto).1

/-- C5 counterexample fixtures: a run in which an ack-requesting response,
combined with repeated transmission failures, triggers a parent re-search
that resets the distance to 255 mid-sequence. -/
def cexEnv : Env :=
  { baseEnv with available := some 10, sendOk := fun _ _ => false }

def cexState : State := { baseState with nc := ⟨10, 1, 255⟩ }

def fprGood : MyMessage :=
  { blankMsg with sender := 7, last := 1, destination := 10,
                  command := C_INTERNAL, type := I_FIND_PARENT_RESPONSE,
                  version := PROTOCOL_VERSION, payload := [5], length := 1,
                  payloadType := P_BYTE }

def fprAck : MyMessage :=
  { fprGood with sender := 9, last := 7, payload := [20], reqAck := true }

/-- C5 counterexample: after the fifth ack-requesting response the failure
counter exceeds SEARCH_FAILURES, `transportFindParentNode` resets the
distance to 255, and the last response (candidate 21) is adopted although
the minimum over valid responses is 6. -/
theorem process_findParent_min_counterexample :
    (processFrames cexEnv [fprGood, fprAck, fprAck, fprAck, fprAck] cexState).nc.distance = 21 ∧
    specMinDistance [fprGood, fprAck, fprAck, fprAck, fprAck] = 6 := by
  decide

theorem process_findParent_min_witness :
    cexEnv.available = some 10 ∧
    cexState.autoFindParent = true ∧
    cexState.nc.distance = 255 ∧
    (∀ f ∈ [fprGood], f.destination = cexState.nc.nodeId ∧
      f.version = PROTOCOL_VERSION ∧ f.command = C_INTERNAL ∧
      f.type = I_FIND_PARENT_RESPONSE ∧ f.reqAck = false) ∧
    ((processFrames cexEnv [fprGood] cexState).nc.distance = specMinDistance [fprGood] ∧
     (specMinDistance [fprGood] < 255 →
       ∃ f, [fprGood].find? (fun g => candOf g == some (specMinDistance [fprGood])) = some f ∧
         (processFrames cexEnv [fprGood] cexState).nc.parentNodeId = f.sender) ∧
     (¬ specMinDistance [fprGood] < 255 →
       (processFrames cexEnv [fprGood] cexState).nc.parentNodeId = cexState.nc.parentNodeId) ∧
     (∀ f, f.destination = cexState.nc.nodeId → f.version = PROTOCOL_VERSION →
       f.command = C_INTERNAL → f.type = I_FIND_PARENT_RESPONSE → f.reqAck = false →
       (transportProcess { cexEnv with received := f } cexState).1.nc = adoptNC cexState.nc f)) :=
  ⟨rfl, rfl, rfl, by decide,
   process_findParent_min cexEnv 10 [fprGood] cexState rfl rfl rfl (by decide)⟩


end MySensors
